import Mathlib

/-!
Verification of the researcher-data aggregation layer of the ORCID research
platform repository: a shallow embedding of the TypeScript sources
(`src/lib/academic-platforms.ts`, `src/app/api/search/route.ts`,
`src/app/api/researcher/[id]/route.ts` and the external-platform utility
module) together with proofs about the embedded definitions.

Conventions of the embedding:
* JavaScript numbers appearing in the modelled code are integers, so they are
  embedded as `Int` (no floating point value is ever produced by the modelled
  paths; the similarity threshold comparison is embedded exactly over the
  rationals via cross multiplication).
* `number | string` values (`citationCount`, `totalCitations`, `hIndex`,
  `citations`, `doi`) are embedded as `JSVal`, which also has `nullv` and
  `undef` so that the truthiness tests of the source can be stated.
* `async` calls that may fail are embedded by passing their settled outcome
  explicitly (`Settled`, `Option`, `Except`); timeouts and rejections are the
  failure constructors.  The embedded functions are total, which models the
  fact that every modelled handler catches its exceptions.
* `new Date()` / `Date.now()` is passed in explicitly as a `now` parameter.
-/

/-- Model of a JavaScript value of type `number | string | null | undefined`,
as used for `citationCount`, `totalCitations`, `hIndex`, `citations`, `doi`
fields in the sources. -/
inductive JSVal where
  | num (n : Int)
  | str (s : String)
  | nullv
  | undef
deriving DecidableEq, Repr

/-- JavaScript truthiness test restricted to `JSVal`: `null`, `undefined`,
`0` and `""` are falsy. -/
def jsFalsy (v : JSVal) : Bool :=
  match v with
  | .num n => n == 0
  | .str s => s == ""
  | .nullv => true
  | .undef => true

/-- Model of `a || b` on `JSVal` operands. -/
def jsOrVal (v d : JSVal) : JSVal :=
  if jsFalsy v then d else v

/-- Model of `value === null || value === undefined || value === 0 ||
value === '' ? "-" : value` — `formatDataOrDash` from
`src/lib/academic-platforms.ts` (lines 257-262) and the identical copy in the
external-platform module. -/
def formatDataOrDash (v : JSVal) : JSVal :=
  match v with
  | .num n => if n = 0 then JSVal.str "-" else JSVal.num n
  | .str s => if s = "" then JSVal.str "-" else JSVal.str s
  | .nullv => JSVal.str "-"
  | .undef => JSVal.str "-"

/-- Model of `opt || dflt` for an optional string (`undefined` and `""` are
falsy). -/
def jsOrStr (o : Option String) (d : String) : String :=
  match o with
  | some s => if s = "" then d else s
  | none => d

/-- Model of `s || dflt` for a present string. -/
def jsStrOr (s d : String) : String :=
  if s = "" then d else s

/-- Model of `opt || dflt` for an optional integer (`undefined` and `0` are
falsy). -/
def jsOrInt (o : Option Int) (d : Int) : Int :=
  match o with
  | some n => if n = 0 then d else n
  | none => d

/-- An optional integer field read off a parsed JSON object. -/
def jsOfOptInt (o : Option Int) : JSVal :=
  match o with
  | some n => JSVal.num n
  | none => JSVal.undef

/-- An optional string field read off a parsed JSON object. -/
def jsOfOptStr (o : Option String) : JSVal :=
  match o with
  | some s => JSVal.str s
  | none => JSVal.undef

/-- `typeof v === 'number' ? v : 0`. -/
def jsNumOrZero (v : JSVal) : Int :=
  match v with
  | .num n => n
  | _ => 0

/-- `v > 0` evaluated on a citation-count field (only numeric values ever
reach this comparison in the modelled code). -/
def jsNumPos (v : JSVal) : Bool :=
  match v with
  | .num n => 0 < n
  | _ => false

/-- `typeof v === 'number' && v === 0`. -/
def jsIsZeroNum (v : JSVal) : Bool :=
  v == JSVal.num 0

/-- `s.toLowerCase()`, implemented on the character list so that it reduces
inside the kernel (the library `String.toLower` goes through byte-position
recursion that does not). -/
def jsToLower (s : String) : String :=
  String.mk (s.toList.map Char.toLower)

/-- `s.trim()`: drop leading and trailing whitespace. -/
def jsTrim (s : String) : String :=
  String.mk (((s.toList.dropWhile Char.isWhitespace).reverse.dropWhile
    Char.isWhitespace).reverse)

/-- The splitting loop behind `s.split(sep)`: runs of non-separator
characters delimited by single separator characters, so `""` splits to
`[""]` and adjacent separators produce empty tokens. -/
def jsSplitGo (p : Char → Bool) : List Char → List Char → List String
  | [], acc => [String.mk acc.reverse]
  | c :: rest, acc =>
    if p c then String.mk acc.reverse :: jsSplitGo p rest []
    else jsSplitGo p rest (c :: acc)

/-- Split a string at the characters satisfying `p`. -/
def jsSplit (s : String) (p : Char → Bool) : List String :=
  jsSplitGo p s.toList []

/-- Infix (substring) check on character lists, used to model
`String.prototype.includes`. -/
def charListInfix (needle : List Char) : List Char → Bool
  | [] => needle.isEmpty
  | c :: t => needle.isPrefixOf (c :: t) || charListInfix needle t

/-- Model of `hay.includes(needle)`. -/
def strIncludes (hay needle : String) : Bool :=
  charListInfix needle.toList hay.toList

/-- Numeric value of a non-empty digit string. -/
def digitsVal (cs : List Char) : Nat :=
  cs.foldl (fun a c => 10 * a + (c.toNat - 48)) 0

/-- Model of `parseInt(s) || 0` for the decimal strings that can occur in the
modelled pipeline: leading whitespace is skipped, an optional sign is read,
then the longest prefix of decimal digits; if there is none the result of
`parseInt` is `NaN` and `|| 0` turns it into `0`. -/
def parseIntOr0 (s : String) : Int :=
  let cs := s.toList.dropWhile (fun c => c.isWhitespace)
  match cs with
  | '-' :: r =>
    let ds := r.takeWhile (fun c => c.isDigit)
    if ds.isEmpty then 0 else -(digitsVal ds : Int)
  | '+' :: r =>
    let ds := r.takeWhile (fun c => c.isDigit)
    if ds.isEmpty then 0 else (digitsVal ds : Int)
  | r =>
    let ds := r.takeWhile (fun c => c.isDigit)
    if ds.isEmpty then 0 else (digitsVal ds : Int)

/-! ### Metrics calculator (`calculateHIndex`)

`src/lib/academic-platforms.ts` lines 240-255, duplicated verbatim in the
external-platform module.  The JavaScript sorts the citation counts in
descending order with `sort((a, b) => b - a)` and then walks the sorted list,
recording `i + 1` while `sorted[i] >= i + 1` and stopping at the first index
where this fails. -/

instance : DecidableRel (fun a b : Int => b ≤ a) :=
  fun a b => Int.decLe b a

/-- `citationCounts.sort((a, b) => b - a)`: a descending sort. -/
def sortDescInt (l : List Int) : List Int :=
  l.insertionSort (fun a b => b ≤ a)

/-- The loop of `calculateHIndex`: `i` is the number of entries accepted so
far; the loop body accepts entry `c` when `c >= i + 1` and breaks
otherwise. -/
def hIndexLoop : List Int → Nat → Nat
  | [], i => i
  | c :: rest, i => if (i : Int) + 1 ≤ c then hIndexLoop rest (i + 1) else i

/-- Model of `calculateHIndex` (`src/lib/academic-platforms.ts` lines
240-255). -/
def calculateHIndex (l : List Int) : Nat :=
  if l.isEmpty then 0 else hIndexLoop (sortDescInt l) 0

instance : IsTotal Int (fun a b : Int => b ≤ a) :=
  ⟨fun a b => le_total b a⟩

instance : IsTrans Int (fun a b : Int => b ≤ a) :=
  ⟨fun _ _ _ h1 h2 => le_trans h2 h1⟩

/-! ### Search result ranking (`rankAndSortResults`)

`src/app/api/search/route.ts` lines 18-26 (the `Researcher` interface) and
lines 878-924 (`rankAndSortResults`). -/

/-- The `Researcher` record produced by the search route. -/
structure Researcher where
  orcidId : String
  name : String
  country : String
  keywords : List String
  citationCount : JSVal
  publicationCount : JSVal
  rank : Nat
deriving DecidableEq, Repr

/-- The numeric reading used by the comparator in `rankAndSortResults`:
`typeof v === "number" ? v : v === "-" ? 0 : parseInt(String(v)) || 0`. -/
def rankNumVal (v : JSVal) : Int :=
  match v with
  | .num n => n
  | .str s => if s = "-" then 0 else parseIntOr0 s
  | .nullv => parseIntOr0 "null"
  | .undef => parseIntOr0 "undefined"

/-- Citation count of a researcher as read by the ranking comparator. -/
def citNum (r : Researcher) : Int :=
  rankNumVal r.citationCount

/-- Publication count of a researcher as read by the ranking comparator. -/
def pubNum (r : Researcher) : Int :=
  rankNumVal r.publicationCount

/-- `a` sorts before (or ties with) `b` under the comparator of
`rankAndSortResults`: the comparator returns `bCitations - aCitations` and, on
a citation tie, `bPubs - aPubs`, so `a` precedes or ties `b` exactly when the
returned value is `≤ 0`. -/
def sortsBefore (a b : Researcher) : Prop :=
  citNum b < citNum a ∨ (citNum a = citNum b ∧ pubNum b ≤ pubNum a)

instance : DecidableRel sortsBefore := by
  intro a b
  unfold sortsBefore
  infer_instance

instance : IsTotal Researcher sortsBefore := by
  constructor
  intro a b
  unfold sortsBefore
  rcases lt_trichotomy (citNum a) (citNum b) with h | h | h
  · exact Or.inr (Or.inl h)
  · rcases le_total (pubNum b) (pubNum a) with hp | hp
    · exact Or.inl (Or.inr ⟨h, hp⟩)
    · exact Or.inr (Or.inr ⟨h.symm, hp⟩)
  · exact Or.inl (Or.inl h)

instance : IsTrans Researcher sortsBefore := by
  constructor
  intro a b c hab hbc
  unfold sortsBefore at *
  rcases hab with h1 | ⟨h1, h1p⟩ <;> rcases hbc with h2 | ⟨h2, h2p⟩
  · exact Or.inl (lt_trans h2 h1)
  · exact Or.inl (h2 ▸ h1)
  · exact Or.inl (h1 ▸ h2)
  · exact Or.inr ⟨h1.trans h2, le_trans h2p h1p⟩

/-- `researchers.sort(comparator)`: JavaScript `Array.prototype.sort` is
specified to be stable, and the comparator is consistent, so the result is
the unique stable sort by `sortsBefore`; it is embedded as an insertion
sort, which is stable for a relation that holds both ways on ties. -/
def sortResearchers (l : List Researcher) : List Researcher :=
  l.insertionSort sortsBefore

/-- `researchers.forEach((researcher, index) => { researcher.rank = index + 1 })`. -/
def assignRanks (l : List Researcher) : List Researcher :=
  l.enum.map (fun p => { p.2 with rank := p.1 + 1 })

/-- Model of `rankAndSortResults` (`src/app/api/search/route.ts` lines
878-924): sort by the comparator, assign dense 1-based ranks, then
`slice(0, 50)`. -/
def rankAndSortResults (l : List Researcher) : List Researcher :=
  (assignRanks (sortResearchers l)).take 50

/-- The sort key of a researcher: the pair the comparator orders by. -/
def researcherKey (r : Researcher) : Int × Int :=
  (citNum r, pubNum r)

/-- Forget the (recomputed) rank field, to compare ranked output entries with
the input entries they came from. -/
def eraseRank (r : Researcher) : Researcher :=
  { r with rank := 0 }

/-! ### Record matcher

Title matching as implemented in the external-platform enrichment module:
the Semantic Scholar branch (threshold 0.8) and the CrossRef branch
(threshold 0.7).  Both normalize with
`.toLowerCase().replace(/[^\w\s]/g, "").trim()`, split on whitespace runs,
discard tokens of length `<= 3`, and accept on exact normalized equality or
on `common / max(|words1|, |words2|) >= threshold`. -/

/-- `s.toLowerCase().replace(/[^\w\s]/g, "").trim()`: `\w` is
`[A-Za-z0-9_]` and `\s` is whitespace. -/
def normalizeTitle (s : String) : String :=
  jsTrim (String.mk ((jsToLower s).toList.filter
    (fun c => c.isAlphanum || c == '_' || c.isWhitespace)))

/-- `s.split(/\s+/)`: the only difference between splitting on whitespace
runs and splitting on single whitespace characters is extra empty-string
tokens, and those are discarded by the length filter applied to every use of
this function. -/
def splitWhitespace (s : String) : List String :=
  jsSplit s (fun c => c.isWhitespace)

/-- `normalized.split(/\s+/).filter(w => w.length > 3)` applied to an
already-normalized title. -/
def titleTokens (s : String) : List String :=
  (splitWhitespace s).filter (fun w => 3 < w.length)

/-- The common tokens of two titles after normalization and token
filtering (`words1.filter(word => words2.includes(word))`). -/
def commonTokens (a b : String) : List String :=
  (titleTokens (normalizeTitle a)).filter
    (fun w => (titleTokens (normalizeTitle b)).contains w)

/-- The title matching predicate shared by both enrichment branches, with the
threshold `thNum / thDen` passed in.  The floating comparison
`similarity >= threshold` with `similarity = common / max(...)` is embedded
exactly by cross multiplication. -/
def titleSimilarMatch (thNum thDen : Nat) (a b : String) : Bool :=
  let na := normalizeTitle a
  let nb := normalizeTitle b
  if na == nb then true
  else
    let words1 := titleTokens na
    let words2 := titleTokens nb
    if words1.isEmpty || words2.isEmpty then false
    else
      let common := words1.filter (fun w => words2.contains w)
      decide (thNum * max words1.length words2.length ≤ common.length * thDen)

/-- The Semantic Scholar matcher (`similarity >= 0.8`); a paper whose title
is `undefined` never matches, because `orcidTitle === semanticTitle` is false
against `undefined` and `words2` defaults to `[]`. -/
def semanticTitleMatch (orcidTitle : String) (paperTitle : Option String) : Bool :=
  match paperTitle with
  | none => false
  | some t => titleSimilarMatch 8 10 orcidTitle t

/-- The CrossRef matcher (`similarity >= 0.7`); unlike the Semantic Scholar
branch it starts with `if (!crossrefTitle) return false`, so a missing
`title[0]` or a title that normalizes to the empty string never matches. -/
def crossRefTitleMatch (orcidTitle : String) (itemTitle : Option String) : Bool :=
  match itemTitle with
  | none => false
  | some t0 =>
    if normalizeTitle t0 == "" then false
    else titleSimilarMatch 7 10 orcidTitle t0

/-- The matching rule in the words of the specification: normalize both
titles, tokenize discarding tokens of length `≤ 3`, and accept when the
overlap `|common| / max(|tokens_a|, |tokens_b|)` is at least the threshold;
exact normalized-title equality always accepts.  (Division by zero in ℚ is
zero, which correctly rejects token-less titles for any positive
threshold.) -/
def specRecordMatch (threshold : ℚ) (a b : String) : Prop :=
  normalizeTitle a = normalizeTitle b ∨
    threshold ≤ ((commonTokens a b).length : ℚ) /
      (max (titleTokens (normalizeTitle a)).length
        (titleTokens (normalizeTitle b)).length : ℚ)

instance (threshold : ℚ) (a b : String) : Decidable (specRecordMatch threshold a b) := by
  unfold specRecordMatch
  infer_instance

/-! ### Publications and the CrossRef author search

`src/lib/academic-platforms.ts` lines 131-208 (`searchCrossRefByAuthor`,
with the HTTP layer factored out: the parsed `data.message.items` list is
passed in, `none` standing for a failed/timed-out request) and lines 265-377
(`enrichWithOrcidAndCrossRefData`). -/

/-- A publication record as built by the routes. -/
structure Pub where
  title : String
  year : Int
  journal : String
  citations : JSVal
  doi : JSVal
deriving DecidableEq, Repr

/-- A parsed CrossRef work author (fields optional in the JSON). -/
structure CRAuthor where
  given : Option String
  family : Option String
deriving DecidableEq, Repr

/-- `` `${author.given || ''} ${author.family || ''}`.toLowerCase().trim() ``. -/
def crAuthorName (a : CRAuthor) : String :=
  jsTrim (jsToLower ((a.given.getD "") ++ " " ++ (a.family.getD "")))

/-- A parsed CrossRef work record; `publishedYear` is
`work.published?.["date-parts"]?.[0]?.[0]`. -/
structure CRWork where
  title : List String
  publishedYear : Option Int
  containerTitle : List String
  referencedByCount : Option Int
  doi : Option String
  author : List CRAuthor
deriving DecidableEq, Repr

/-- `work.title?.[0] || "Título não disponível"`. -/
def workTitle (w : CRWork) : String :=
  jsOrStr w.title.head? "Título não disponível"

/-- `work.published?.["date-parts"]?.[0]?.[0] || new Date().getFullYear()`. -/
def workYear (now : Int) (w : CRWork) : Int :=
  jsOrInt w.publishedYear now

/-- `work["container-title"]?.[0] || "Revista não informada"`. -/
def workJournal (w : CRWork) : String :=
  jsOrStr w.containerTitle.head? "Revista não informada"

/-- `work["is-referenced-by-count"] || 0`. -/
def workCitations (w : CRWork) : Int :=
  w.referencedByCount.getD 0

/-- `work.DOI || undefined`. -/
def workDoi (w : CRWork) : JSVal :=
  match w.doi with
  | some d => if d = "" then JSVal.undef else JSVal.str d
  | none => JSVal.undef

/-- One mapped publication of `searchCrossRefByAuthor`. -/
def pubOfWork (now : Int) (w : CRWork) : Pub :=
  { title := workTitle w, year := workYear now w, journal := workJournal w,
    citations := JSVal.num (workCitations w), doi := workDoi w }

/-- The author filter of `searchCrossRefByAuthor`: the work must have a
non-empty author list and one of the author names must contain, or be
contained in, the searched name (both lowercased). -/
def crWorkAuthorMatch (authorName : String) (w : CRWork) : Bool :=
  !w.author.isEmpty &&
    (w.author.map crAuthorName).any (fun nm =>
      strIncludes nm (jsToLower authorName) || strIncludes (jsToLower authorName) nm)

/-- The value cached and returned by `searchCrossRefByAuthor`. -/
structure CRAuthorResult where
  publications : List Pub
  totalCitations : Int
  hIndex : Int
deriving DecidableEq, Repr

/-- The response processing of `searchCrossRefByAuthor` (lines 153-202): an
empty `items` list yields `null`; otherwise filter by author, keep the first
50 works, map them to publications, and derive the totals.  (`citations` of a
mapped publication is always numeric, so `pub.citations || 0` is its numeric
value.) -/
def searchCrossRefProcess (now : Int) (authorName : String) (works : List CRWork) :
    Option CRAuthorResult :=
  if works.isEmpty then none
  else
    let filteredWorks := works.filter (crWorkAuthorMatch authorName)
    let publications := (filteredWorks.take 50).map (pubOfWork now)
    some
      { publications := publications,
        totalCitations :=
          (publications.map (fun p => jsNumOrZero p.citations)).foldl (· + ·) 0,
        hIndex :=
          calculateHIndex
            (sortDescInt (publications.map (fun p => jsNumOrZero p.citations))) }

/-- The `orcidData` argument of the enrichment functions. -/
structure OrcidData where
  publications : List Pub
  totalCitations : Int
  hIndex : Int
deriving DecidableEq, Repr

/-- The result of the enrichment functions.  (`enrichmentErrors` is omitted:
in the embedding no exception can be raised, so it is always absent.) -/
structure EnrichResult where
  publications : List Pub
  totalCitations : JSVal
  hIndex : JSVal
  enhancedWith : List String
deriving DecidableEq, Repr

/-- `if (!arr.includes(x)) arr.push(x)`. -/
def pushIfAbsent (l : List String) (s : String) : List String :=
  if l.contains s then l else l ++ [s]

/-- `needsHIndexRecalculation` block (lines 337-348 of
`academic-platforms.ts`, lines 489-500 of the external-platform module). -/
def enrichRecalcHIndex (pubs : List Pub) (eHI : JSVal) : JSVal :=
  if (jsIsZeroNum eHI || eHI == JSVal.str "-") && !pubs.isEmpty then
    let citationCounts :=
      (pubs.map (fun p => jsNumOrZero p.citations)).filter (fun c => 0 < c)
    if citationCounts.isEmpty then eHI else JSVal.num (calculateHIndex citationCounts)
  else eHI

/-- `needsTotalCitationRecalculation` block (lines 350-361 of
`academic-platforms.ts`, lines 502-513 of the external-platform module). -/
def enrichRecalcTotal (pubs : List Pub) (eTC : JSVal) : JSVal :=
  if (jsIsZeroNum eTC || eTC == JSVal.str "-") && !pubs.isEmpty then
    let citationSum := (pubs.map (fun p => jsNumOrZero p.citations)).foldl (· + ·) 0
    if 0 < citationSum then JSVal.num citationSum else eTC
  else eTC

/-- The per-publication citation fill-in loop of
`enrichWithOrcidAndCrossRefData` (lines 317-329): a publication with falsy or
zero citations takes the citation count (and, if its own DOI is falsy, the
DOI) of the first CrossRef publication whose lowercased title contains or is
contained in its own, provided that count is positive.  Donor lookups read
the CrossRef snapshot. -/
def crFillCitations (crPubs : List Pub) (p : Pub) : Pub :=
  if jsFalsy p.citations || p.citations == JSVal.num 0 then
    match crPubs.find? (fun cp =>
        strIncludes (jsToLower cp.title) (jsToLower p.title) ||
        strIncludes (jsToLower p.title) (jsToLower cp.title)) with
    | some cp =>
      if jsNumPos cp.citations then
        { p with citations := cp.citations, doi := jsOrVal p.doi cp.doi }
      else p
    | none => p
  else p

/-- The publication merge of `enrichWithOrcidAndCrossRefData` (lines
303-330): append the CrossRef publications whose lowercased title is not
already present, cap at 50, then run the citation fill-in loop. -/
def crMergeStep (basePubs : List Pub) (ewIn : List String) (cr : CRAuthorResult) :
    List Pub × List String :=
  if cr.publications.isEmpty then (basePubs, ewIn)
  else
    let existingTitles := basePubs.map (fun p => jsToLower p.title)
    let newPublications :=
      cr.publications.filter (fun p => !existingTitles.contains (jsToLower p.title))
    let merged :=
      if newPublications.isEmpty then (basePubs, ewIn)
      else ((basePubs ++ newPublications).take 50, pushIfAbsent ewIn "CrossRef")
    (merged.1.map (crFillCitations cr.publications), merged.2)

/-- The body of the `if (crossRefResults)` block of
`enrichWithOrcidAndCrossRefData` (lines 289-331): adopt the CrossRef totals
when the ORCID ones are zero, recording the source, then merge the
publication lists. -/
def crEnrichBranch (orcid : OrcidData) (cr : CRAuthorResult) :
    List Pub × JSVal × JSVal × List String :=
  let useTC := orcid.totalCitations == 0 && decide (0 < cr.totalCitations)
  let eTC := if useTC then JSVal.num cr.totalCitations else JSVal.num orcid.totalCitations
  let ew1 : List String := if useTC then ["CrossRef"] else []
  let useHI := orcid.hIndex == 0 && decide (0 < cr.hIndex)
  let eHI := if useHI then JSVal.num cr.hIndex else JSVal.num orcid.hIndex
  let ew2 := if useHI then pushIfAbsent ew1 "CrossRef" else ew1
  let merged := crMergeStep orcid.publications ew2 cr
  (merged.1, eTC, eHI, merged.2)

/-- Model of `enrichWithOrcidAndCrossRefData`
(`src/lib/academic-platforms.ts` lines 265-377); the exported
`enrichWithExternalData` of the same file is an alias for it.  `crossRefRaw`
is the parsed CrossRef response, `none` when the request failed or timed
out (`searchCrossRefByAuthor` then returns `null`). -/
def enrichWithOrcidAndCrossRefData (now : Int) (authorName : String)
    (orcid : OrcidData) (crossRefRaw : Option (List CRWork)) : EnrichResult :=
  let step : List Pub × JSVal × JSVal × List String :=
    match crossRefRaw.bind (searchCrossRefProcess now authorName) with
    | none =>
      (orcid.publications, JSVal.num orcid.totalCitations, JSVal.num orcid.hIndex, [])
    | some cr => crEnrichBranch orcid cr
  { publications := step.1,
    totalCitations := formatDataOrDash (enrichRecalcTotal step.1 step.2.1),
    hIndex := formatDataOrDash (enrichRecalcHIndex step.1 step.2.2.1),
    enhancedWith := step.2.2.2 }

/-- The fields of a publication that the enrichment pipeline inspects and
rewrites — everything except `year` and `journal`, which it only copies.  Two
pipeline runs that differ only in the current date produce publication lists
that agree under this observation. -/
def pubObs (p : Pub) : String × JSVal × JSVal :=
  (p.title, p.citations, p.doi)

/-! ### External-platform enrichment (`enrichWithExternalData`)

The standalone external-platform module (Semantic Scholar + CrossRef):
`searchSemanticScholar` and `searchCrossRef` both catch their own failures
and return `[]`, and `enrichWithExternalData` joins them with
`Promise.allSettled`; the settled outcomes are passed in explicitly. -/

/-- The settled outcome of a promise. -/
inductive Settled (α : Type) where
  | rejected
  | fulfilled (value : α)
deriving DecidableEq, Repr

/-- A Semantic Scholar paper (all fields optional in the JSON). -/
structure SSPaper where
  title : Option String
  year : Option Int
  citationCount : Option Int
  venue : Option String
deriving DecidableEq, Repr

/-- A Semantic Scholar author record. -/
structure SSAuthor where
  name : String
  paperCount : Int
  citationCount : Int
  hIndex : Int
  papers : Option (List SSPaper)
deriving DecidableEq, Repr

/-- A parsed CrossRef item of the external-platform module (the `select`ed
fields). -/
structure CRItem where
  title : List String
  publishedYear : Option Int
  containerTitle : List String
  referencedByCount : Option Int
  doi : Option String
deriving DecidableEq, Repr

/-- The publication built from a Semantic Scholar paper (lines 330-336 of the
module). -/
def ssPaperToPub (now : Int) (paper : SSPaper) : Pub :=
  { title := jsOrStr paper.title "Título não disponível",
    year := jsOrInt paper.year now,
    journal := jsOrStr paper.venue "Revista não informada",
    citations := formatDataOrDash (jsOfOptInt paper.citationCount),
    doi := JSVal.undef }

/-- The publication built from a CrossRef item (lines 404-410 of the
module). -/
def crItemToPub (now : Int) (item : CRItem) : Pub :=
  { title := jsOrStr item.title.head? "Título não disponível",
    year := jsOrInt item.publishedYear now,
    journal := jsOrStr item.containerTitle.head? "Revista não informada",
    citations := formatDataOrDash (jsOfOptInt item.referencedByCount),
    doi := jsOfOptStr item.doi }

/-- Citation fill-in from Semantic Scholar papers (lines 345-374): take the
citation count of the first paper matching at similarity 0.8, provided it is
positive. -/
def ssFillCitations (papers : List SSPaper) (p : Pub) : Pub :=
  match papers.find? (fun sp => semanticTitleMatch p.title sp.title) with
  | some mp =>
    match mp.citationCount with
    | some n => if 0 < n then { p with citations := JSVal.num n } else p
    | none => p
  | none => p

/-- Citation fill-in from CrossRef works (lines 414-452): publications that
already carry a positive numeric count are skipped; otherwise the first work
matching at similarity 0.7 donates its count (if positive) and, when the
publication's own DOI is falsy, its DOI. -/
def crItemFillCitations (works : List CRItem) (p : Pub) : Pub :=
  if jsNumPos p.citations then p
  else
    match works.find? (fun w => crossRefTitleMatch p.title w.title.head?) with
    | some mw =>
      match mw.referencedByCount with
      | some n =>
        if 0 < n then
          { p with citations := JSVal.num n, doi := jsOrVal p.doi (jsOfOptStr mw.doi) }
        else p
      | none => p
    | none => p

/-- `typeof v !== 'number' || v === 0`. -/
def jsNonNumOrZero (v : JSVal) : Bool :=
  match v with
  | .num n => n == 0
  | _ => true

/-- Model of `enrichWithExternalData` of the external-platform module (lines
274-531).  The `enrichmentErrors` bookkeeping of the rejected branches is
dropped (the model is total), and `enhancedWith` is threaded exactly as in
the source. -/
def enrichWithExternalData (now : Int) (authorName : String) (orcid : OrcidData)
    (semantic : Settled (List SSAuthor)) (crossref : Settled (List CRItem)) :
    EnrichResult :=
  let semStep : List Pub × JSVal × JSVal × List String :=
    match semantic with
    | .fulfilled (a0 :: rest) =>
      let authors := a0 :: rest
      let exactMatch := authors.find? (fun a =>
        strIncludes (jsToLower a.name) (jsToLower authorName) ||
        strIncludes (jsToLower authorName) (jsToLower a.name))
      let author := exactMatch.getD a0
      let useTC := orcid.totalCitations == 0 && decide (0 < author.citationCount)
      let eTC := if useTC then JSVal.num author.citationCount
                 else JSVal.num orcid.totalCitations
      let ew1 : List String := if useTC then ["Semantic Scholar"] else []
      let useHI := orcid.hIndex == 0 && decide (0 < author.hIndex)
      let eHI := if useHI then JSVal.num author.hIndex else JSVal.num orcid.hIndex
      let ew2 := if useHI then pushIfAbsent ew1 "Semantic Scholar" else ew1
      let seeded :=
        match author.papers with
        | some papers =>
          if orcid.publications.isEmpty && !papers.isEmpty then
            ((papers.take 20).map (ssPaperToPub now), pushIfAbsent ew2 "Semantic Scholar")
          else (orcid.publications, ew2)
        | none => (orcid.publications, ew2)
      let pubs2 :=
        match author.papers with
        | some papers =>
          if !papers.isEmpty then
            let enriched := seeded.1.map (ssFillCitations papers)
            if 0 < enriched.countP (fun p => jsNumPos p.citations) then enriched
            else seeded.1
          else seeded.1
        | none => seeded.1
      (pubs2, eTC, eHI, seeded.2)
    | .fulfilled [] =>
      (orcid.publications, JSVal.num orcid.totalCitations, JSVal.num orcid.hIndex, [])
    | .rejected =>
      (orcid.publications, JSVal.num orcid.totalCitations, JSVal.num orcid.hIndex, [])
  let crStep : List Pub × JSVal × List String :=
    match crossref with
    | .fulfilled (w0 :: rest) =>
      let works := w0 :: rest
      let merged :=
        if semStep.1.isEmpty then
          ((works.take 15).map (crItemToPub now), semStep.2.2.2 ++ ["CrossRef"])
        else
          let enriched := semStep.1.map (crItemFillCitations works)
          let enrichedCount := (enriched.zip semStep.1).countP (fun pr =>
            jsNumPos pr.1.citations && jsNonNumOrZero pr.2.citations)
          if 0 < enrichedCount then (enriched, pushIfAbsent semStep.2.2.2 "CrossRef")
          else (semStep.1, semStep.2.2.2)
      let needsC := jsIsZeroNum semStep.2.1 || semStep.2.1 == JSVal.str "-"
      let totalFromCR : Int :=
        (works.map (fun w => w.referencedByCount.getD 0)).foldl (· + ·) 0
      let eTC2 := if needsC && decide (0 < totalFromCR) then JSVal.num totalFromCR
                  else semStep.2.1
      (merged.1, eTC2, merged.2)
    | .fulfilled [] => (semStep.1, semStep.2.1, semStep.2.2.2)
    | .rejected => (semStep.1, semStep.2.1, semStep.2.2.2)
  { publications := crStep.1,
    totalCitations := formatDataOrDash (enrichRecalcTotal crStep.1 crStep.2.1),
    hIndex := formatDataOrDash (enrichRecalcHIndex crStep.1 semStep.2.2.1),
    enhancedWith := crStep.2.2 }

/-! ### Search route (`src/app/api/search/route.ts`)

The country-variant table (lines 29-85), the country filter (lines 675-693),
the per-candidate processing step (lines 560-672, with the network layer
factored into settled outcomes), the strategy orchestration (lines 961-1012)
and the `POST` handler (lines 102-161). -/

/-- `COUNTRY_CODES[filterCountry] || [filterCountry]` (lines 29-85 and
681). -/
def countryCodeVariants (filterCountry : String) : List String :=
  match filterCountry with
  | "BR" => ["Brazil", "Brasil", "BR", "Brazilian", "Universidade", "Instituto",
             "UFRJ", "USP", "UFMG", "UNICAMP"]
  | "US" => ["United States", "USA", "US", "United States of America", "American",
             "University", "College"]
  | "GB" => ["United Kingdom", "UK", "GB", "Great Britain", "England", "Scotland",
             "Wales", "British"]
  | "DE" => ["Germany", "Deutschland", "DE", "German", "Universität"]
  | "FR" => ["France", "FR", "French", "Université"]
  | "CA" => ["Canada", "CA", "Canadian", "University"]
  | "AU" => ["Australia", "AU", "Australian", "University"]
  | "JP" => ["Japan", "JP", "Japanese", "University"]
  | "CN" => ["China", "CN", "Chinese", "University"]
  | "IN" => ["India", "IN", "Indian", "University"]
  | "ES" => ["Spain", "España", "ES", "Spanish", "Universidad"]
  | "IT" => ["Italy", "Italia", "IT", "Italian", "Università"]
  | "NL" => ["Netherlands", "Nederland", "NL", "Holland", "Dutch", "Universiteit"]
  | "SE" => ["Sweden", "Sverige", "SE", "Swedish", "University"]
  | "NO" => ["Norway", "Norge", "NO", "Norwegian", "University"]
  | "CH" => ["Switzerland", "Schweiz", "CH", "Swiss", "University"]
  | "AT" => ["Austria", "Österreich", "AT", "Austrian", "Universität"]
  | "BE" => ["Belgium", "België", "BE", "Belgian", "University"]
  | "DK" => ["Denmark", "Danmark", "DK", "Danish", "University"]
  | "PT" => ["Portugal", "PT", "Portuguese", "Universidade"]
  | "MX" => ["Mexico", "México", "MX", "Mexican", "Universidad"]
  | "AR" => ["Argentina", "AR", "Argentinian", "Universidad"]
  | "CL" => ["Chile", "CL", "Chilean", "Universidad"]
  | "CO" => ["Colombia", "CO", "Colombian", "Universidad"]
  | "PE" => ["Peru", "Perú", "PE", "Peruvian", "Universidad"]
  | "UY" => ["Uruguay", "UY", "Uruguayan", "Universidad"]
  | "VE" => ["Venezuela", "VE", "Venezuelan", "Universidad"]
  | other => [other]

/-- Model of `isCountryMatch` (lines 675-693): the unknown-country sentinel
never matches; otherwise some variant name must be a case-insensitive
substring of the researcher country, or vice versa, or be equal to it. -/
def isCountryMatch (researcherCountry filterCountry : String) : Bool :=
  if researcherCountry == "País não informado" then false
  else
    (countryCodeVariants filterCountry).any (fun countryName =>
      strIncludes (jsToLower researcherCountry) (jsToLower countryName) ||
      strIncludes (jsToLower countryName) (jsToLower researcherCountry) ||
      jsToLower researcherCountry == jsToLower countryName)

/-- `country && country !== "all"` for the optional request country. -/
def countryFilterActive (country : Option String) : Bool :=
  match country with
  | some s => !(s == "") && !(s == "all")
  | none => false

/-- The minimal profile payload read by `processSingleResearcher`: name
parts, `addresses.address[*].country?.value` and keyword contents. -/
structure ProfileMini where
  givenNames : Option String
  familyName : Option String
  creditName : Option String
  addressCountries : List (Option String)
  keywords : List (Option String)
deriving DecidableEq, Repr

/-- Name extraction of the search route (lines 617-624):
`creditName || `${givenNames} ${familyName}`.trim() || "Nome não disponível"`. -/
def searchExtractName (p : ProfileMini) : String :=
  jsOrStr p.creditName
    (jsStrOr (jsTrim ((p.givenNames.getD "") ++ " " ++ (p.familyName.getD "")))
      "Nome não disponível")

/-- Country extraction of the search route (lines 626-630). -/
def searchExtractCountry (p : ProfileMini) : String :=
  match p.addressCountries with
  | [] => "País não informado"
  | c :: _ => jsOrStr c "País não informado"

/-- `keywords.keyword.slice(0, 15).map(k => k.content).filter(Boolean)`. -/
def extractKeywords (kw : List (Option String)) : List String :=
  (kw.take 15).filterMap (fun o =>
    match o with
    | some s => if s = "" then none else some s
    | none => none)

/-- Model of `processSingleResearcher` (lines 560-672).  `profileFetch` is
the settled outcome of the raced profile request (`rejected` covers both the
timeout and a thrown fetch, which the surrounding `catch` turns into `null`);
its boolean is `response.ok` — on a not-ok response the defaults
`"Nome não disponível"` / `"País não informado"` / `[]` survive.  `pubData`
is the outcome of `getEnhancedPublicationData`, whose failure is silently
replaced by `"-"` counts. -/
def processSingleResearcher (orcidId : String)
    (profileFetch : Settled (Bool × ProfileMini)) (filterCountry : Option String)
    (pubData : Settled (JSVal × JSVal)) : Option Researcher :=
  match profileFetch with
  | .rejected => none
  | .fulfilled (ok, pm) =>
    let name := if ok then searchExtractName pm else "Nome não disponível"
    let country := if ok then searchExtractCountry pm else "País não informado"
    let keywords := if ok then extractKeywords pm.keywords else []
    if countryFilterActive filterCountry &&
        !isCountryMatch country (filterCountry.getD "") then none
    else
      let counts :=
        match pubData with
        | .fulfilled pr => pr
        | .rejected => (JSVal.str "-", JSVal.str "-")
      some { orcidId := orcidId, name := name, country := country,
             keywords := keywords, citationCount := counts.1,
             publicationCount := counts.2, rank := 0 }

/-- Model of `performCountryAwareSearchOptimized` (lines 961-1012).  The
three upstream query executions are passed as `Except` outcomes
(`searchWithCountryTerms`, the raced `searchGeneral` of strategy 2, and the
`searchGeneral` retry of the fallback); `Except.error` is a raised/timed-out
strategy.  The `catch` block reruns a plain general search only when no
strategy result had been accumulated, and swallows its failure. -/
def performCountryAwareSearchOptimized (country : Option String)
    (countryRes generalRes fallbackRes : Except Unit (List Researcher)) :
    List Researcher :=
  let collected :=
    match (if countryFilterActive country then countryRes else Except.ok []) with
    | .error _ =>
      match fallbackRes with
      | .ok r => r
      | .error _ => []
    | .ok r1 =>
      if r1.length < 15 then
        match generalRes with
        | .ok r2 =>
          r1 ++ r2.filter (fun r => !(r1.map (fun x => x.orcidId)).contains r.orcidId)
        | .error _ =>
          if r1.isEmpty then
            match fallbackRes with
            | .ok r => r
            | .error _ => []
          else r1
      else r1
  rankAndSortResults collected

/-- The request body of the search `POST` handler; `query := none` models a
body without a usable `query` value (absent, `null` or `undefined`). -/
structure SearchBody where
  query : Option String
  type : String
  country : Option String
deriving DecidableEq, Repr

/-- The responses the search `POST` handler can produce. -/
inductive SearchOutcome where
  | ok (researchers : List Researcher)
  | badRequest
  | configError
  | internalError
deriving DecidableEq, Repr

/-- `country || "all"` as used in the cache key. -/
def countryKeyPart (country : Option String) : String :=
  match country with
  | some s => if s = "" then "all" else s
  | none => "all"

/-- Model of the `POST` handler (lines 102-161).  The cache key is computed
from `query.trim()` *before* the presence check, so an absent/null/undefined
query raises a `TypeError` that the surrounding `catch` turns into the
500 payload (`internalError`).  `searchCache` maps a key to a fresh cached
result.  `credsOk` is the presence of the two ORCID environment variables. -/
def POST (body : SearchBody) (searchCache : String → Option (List Researcher))
    (credsOk : Bool)
    (countryRes generalRes fallbackRes : Except Unit (List Researcher)) :
    SearchOutcome :=
  match body.query with
  | none => SearchOutcome.internalError
  | some q =>
    let cacheKey :=
      "search_" ++ jsToLower (jsTrim q) ++ "_" ++ body.type ++ "_" ++
        countryKeyPart body.country
    match searchCache cacheKey with
    | some results => SearchOutcome.ok results
    | none =>
      if jsTrim q = "" then SearchOutcome.badRequest
      else if !credsOk then SearchOutcome.configError
      else
        SearchOutcome.ok
          (performCountryAwareSearchOptimized body.country countryRes generalRes
            fallbackRes)

/-! ### Researcher profile route (`src/app/api/researcher/[id]/route.ts`)

The `GET` handler fetches person, employments, educations and works with
`Promise.allSettled`; the four settled outcomes (each carrying `response.ok`
and the parsed body) are passed in explicitly, as is the outcome of the raced
enrichment call. -/

/-- An ORCID date object (`{year: {value}, month: {value}}`). -/
structure DateObj where
  year : Option Int
  month : Option Int
deriving DecidableEq, Repr

/-- `month.toString().padStart(2, "0")`. -/
def padTwo (m : Int) : String :=
  let s := toString m
  if s.length < 2 then "0" ++ s else s

/-- Model of `formatDate` (lines 385-398): `if (year)` and the `month ?`
test are truthiness tests, so a zero year yields `undefined` and a zero
month drops the month part. -/
def formatDate (d : Option DateObj) : Option String :=
  match d with
  | none => none
  | some dobj =>
    match dobj.year with
    | some y =>
      if y = 0 then none
      else
        match dobj.month with
        | some m => if m = 0 then some (toString y) else some (toString y ++ "/" ++ padTwo m)
        | none => some (toString y)
    | none => none

/-- An `employment-summary` entry. -/
structure EmpSummary where
  orgName : Option String
  roleTitle : Option String
  startDate : Option DateObj
  endDate : Option DateObj
deriving DecidableEq, Repr

/-- The `Employment` record of the profile. -/
structure Employment where
  organization : String
  role : String
  startDate : Option String
  endDate : Option String
deriving DecidableEq, Repr

/-- One processed employment (lines 164-171). -/
def employmentOfSummary (e : EmpSummary) : Employment :=
  { organization := jsOrStr e.orgName "Organização não informada",
    role := jsOrStr e.roleTitle "Cargo não informado",
    startDate := formatDate e.startDate,
    endDate := formatDate e.endDate }

/-- An `education-summary` entry. -/
structure EduSummary where
  orgName : Option String
  roleTitle : Option String
  endDate : Option DateObj
deriving DecidableEq, Repr

/-- The `Education` record of the profile. -/
structure Education where
  organization : String
  degree : String
  year : Option String
deriving DecidableEq, Repr

/-- One processed education (lines 187-193);
`edu["end-date"]?.year?.value?.toString() || undefined`. -/
def educationOfSummary (e : EduSummary) : Education :=
  { organization := jsOrStr e.orgName "Instituição não informada",
    degree := jsOrStr e.roleTitle "Grau não informado",
    year :=
      match e.endDate with
      | some d =>
        match d.year with
        | some y => some (toString y)
        | none => none
      | none => none }

/-- Summary-level fields of a work. -/
structure WorkSummary where
  title : Option String
  year : Option Int
  journal : Option String
deriving DecidableEq, Repr

/-- Detail-level fields of a work; `externalIds` is the
`external-ids.external-id` list as (type, value) pairs. -/
structure WorkDetail where
  title : Option String
  year : Option Int
  journal : Option String
  externalIds : List (String × Option String)
deriving DecidableEq, Repr

/-- Model of `processWorkDetail` (lines 400-428). -/
def processWorkDetail (now : Int) (workDetail : WorkDetail) (workSummary : WorkSummary) :
    Pub :=
  { title := jsOrStr workDetail.title (jsOrStr workSummary.title "Título não disponível"),
    year := jsOrInt workDetail.year (jsOrInt workSummary.year now),
    journal := jsOrStr workDetail.journal (jsOrStr workSummary.journal "Revista não informada"),
    citations := JSVal.num 0,
    doi :=
      match workDetail.externalIds.find? (fun pr => pr.1 == "doi") with
      | some pr => jsOfOptStr pr.2
      | none => JSVal.undef }

/-- Model of `processWorkSummary` (lines 430-444). -/
def processWorkSummary (now : Int) (workSummary : WorkSummary) : Pub :=
  { title := jsOrStr workSummary.title "Título não disponível",
    year := jsOrInt workSummary.year now,
    journal := jsOrStr workSummary.journal "Revista não informada",
    citations := JSVal.num 0,
    doi := JSVal.undef }

/-- One `group` of the works payload together with the settled outcome of
its raced work-detail request. -/
structure WorkGroupInput where
  workSummary : Option WorkSummary
  detailFetch : Settled (Bool × WorkDetail)
deriving DecidableEq, Repr

/-- Per-group processing (lines 224-258): a group without a `work-summary[0]`
yields nothing; a fulfilled, ok detail response is processed in full; a
not-ok or rejected (timed-out) detail request falls back to the summary. -/
def extractPublication (now : Int) (g : WorkGroupInput) : Option Pub :=
  match g.workSummary with
  | none => none
  | some s =>
    match g.detailFetch with
    | .fulfilled (true, d) => some (processWorkDetail now d s)
    | .fulfilled (false, _) => some (processWorkSummary now s)
    | .rejected => some (processWorkSummary now s)

/-- The works loop (lines 213-271): at most 50 groups are processed, in
batches of 10 whose settle-all join preserves submission order. -/
def extractPublications (now : Int) (groups : List WorkGroupInput) : List Pub :=
  (groups.take 50).filterMap (extractPublication now)

/-- The person payload fields read by the handler. -/
structure PersonData where
  givenNames : Option String
  familyName : Option String
  creditName : Option String
  biography : Option String
  emails : List String
  researcherUrls : List (Option String)
  addressCountries : List (Option String)
  keywords : List (Option String)
deriving DecidableEq, Repr

/-- Name extraction of the profile route (lines 376-383):
`` `${givenNames} ${familyName}`.trim() || creditName || "Nome não disponível" ``
(note: the *other* order than the search route). -/
def extractName (p : PersonData) : String :=
  jsStrOr (jsTrim ((p.givenNames.getD "") ++ " " ++ (p.familyName.getD "")))
    (jsOrStr p.creditName "Nome não disponível")

/-- The assembled `ResearcherProfile` (interface at lines 29-43).  `country`
is `addresses[0].country?.value` when an address exists — possibly
`undefined`, hence `Option String` — and the sentinel otherwise. -/
structure ResearcherProfile where
  orcidId : String
  name : String
  country : Option String
  email : Option String
  website : Option String
  keywords : List String
  publications : List Pub
  totalCitations : JSVal
  hIndex : JSVal
  biography : String
  employments : List Employment
  educations : List Education
  enhancedWith : List String
deriving DecidableEq, Repr

/-- The responses the profile `GET` handler can produce. -/
inductive ProfileOutcome where
  | badRequest
  | notFound
  | ok (profile : ResearcherProfile)
deriving DecidableEq, Repr

/-- The profile carried by an `ok` outcome, if any. -/
def profileOf : ProfileOutcome → Option ResearcherProfile
  | .ok p => some p
  | _ => none

/-- Model of the profile `GET` handler (lines 49-374).  `personFetch`,
`employmentsFetch`, `educationsFetch` and `worksFetch` are the four settled
responses; `enrichOutcome` is the raced enrichment: `fulfilled raw` means
`enrichWithExternalData` (the academic-platforms alias of
`enrichWithOrcidAndCrossRefData`) resolved against the CrossRef response
`raw`, `rejected` is the enrichment timeout/failure, after which the initial
`{publications, "-", "-", []}` object is used (whose `publications` field
still aliases the original array). -/
def GET (now : Int) (orcidId : String) (cached : Option ResearcherProfile)
    (personFetch : Settled (Bool × PersonData))
    (employmentsFetch : Settled (Bool × List EmpSummary))
    (educationsFetch : Settled (Bool × List EduSummary))
    (worksFetch : Settled (Bool × List WorkGroupInput))
    (enrichOutcome : Settled (Option (List CRWork))) : ProfileOutcome :=
  if orcidId = "" then ProfileOutcome.badRequest
  else
    match cached with
    | some p => ProfileOutcome.ok p
    | none =>
      match personFetch with
      | .rejected => ProfileOutcome.notFound
      | .fulfilled (ok, person) =>
        if !ok then ProfileOutcome.notFound
        else
          let name := extractName person
          let biography := person.biography.getD ""
          let email := person.emails.head?
          let website := (person.researcherUrls.head?).bind id
          let country :=
            match person.addressCountries with
            | [] => some "País não informado"
            | c :: _ => c
          let keywords := extractKeywords person.keywords
          let employments :=
            match employmentsFetch with
            | .fulfilled (true, groups) => (groups.take 10).map employmentOfSummary
            | _ => []
          let educations :=
            match educationsFetch with
            | .fulfilled (true, groups) => (groups.take 10).map educationOfSummary
            | _ => []
          let publications :=
            match worksFetch with
            | .fulfilled (true, groups) => extractPublications now groups
            | _ => []
          match enrichOutcome with
          | .fulfilled raw =>
            let enriched := enrichWithOrcidAndCrossRefData now name
              { publications := publications, totalCitations := 0, hIndex := 0 } raw
            let finalPubs :=
              if enriched.publications.isEmpty then enriched.publications
              else enriched.publications.map
                (fun p => { p with citations := formatDataOrDash p.citations })
            ProfileOutcome.ok
              { orcidId := orcidId, name := name, country := country, email := email,
                website := website, keywords := keywords, publications := finalPubs,
                totalCitations := jsOrVal enriched.totalCitations (JSVal.str "-"),
                hIndex := jsOrVal enriched.hIndex (JSVal.str "-"),
                biography := biography, employments := employments,
                educations := educations, enhancedWith := enriched.enhancedWith }
          | .rejected =>
            ProfileOutcome.ok
              { orcidId := orcidId, name := name, country := country, email := email,
                website := website, keywords := keywords, publications := publications,
                totalCitations := JSVal.str "-", hIndex := JSVal.str "-",
                biography := biography, employments := employments,
                educations := educations, enhancedWith := [] }

theorem le_hIndexLoop : ∀ (l : List Int) (i : Nat), i ≤ hIndexLoop l i := by
  intro l
  induction l with
  | nil => intro i; exact Nat.le_refl i
  | cons c rest ih =>
    intro i
    unfold hIndexLoop
    split
    · exact Nat.le_trans (Nat.le_succ i) (ih (i + 1))
    · exact Nat.le_refl i

theorem hIndexLoop_achieves :
    ∀ (l : List Int) (i : Nat), l.Pairwise (fun a b => b ≤ a) →
      hIndexLoop l i ≤ l.countP (fun c => decide ((hIndexLoop l i : Int) ≤ c)) + i := by
  intro l
  induction l with
  | nil => intro i _; simp [hIndexLoop]
  | cons c rest ih =>
    intro i hp
    have hrest : rest.Pairwise (fun a b => b ≤ a) := (List.pairwise_cons.mp hp).2
    have hhead : ∀ b ∈ rest, b ≤ c := (List.pairwise_cons.mp hp).1
    unfold hIndexLoop
    split
    · case isTrue hc =>
      have hIH := ih (i + 1) hrest
      have hge : i + 1 ≤ hIndexLoop rest (i + 1) := le_hIndexLoop rest (i + 1)
      have hcH : ((hIndexLoop rest (i + 1) : Int)) ≤ c := by
        rcases Nat.eq_or_lt_of_le hge with heq | hlt
        · rw [← heq]; push_cast; omega
        · have hpos :
              0 < rest.countP (fun x => decide ((hIndexLoop rest (i + 1) : Int) ≤ x)) := by
            omega
          obtain ⟨a, ha, hpa⟩ := List.countP_pos_iff.mp hpos
          have : ((hIndexLoop rest (i + 1) : Int)) ≤ a := of_decide_eq_true hpa
          exact le_trans this (hhead a ha)
      have hcount :
          (c :: rest).countP (fun x => decide ((hIndexLoop rest (i + 1) : Int) ≤ x)) =
            rest.countP (fun x => decide ((hIndexLoop rest (i + 1) : Int) ≤ x)) + 1 := by
        rw [List.countP_cons_of_pos]
        exact decide_eq_true hcH
      rw [hcount]
      omega
    · case isFalse hc => exact Nat.le_add_left i _

theorem hIndexLoop_greatest :
    ∀ (l : List Int) (i h : Nat), l.Pairwise (fun a b => b ≤ a) →
      h ≤ l.countP (fun c => decide ((h : Int) ≤ c)) + i → h ≤ hIndexLoop l i := by
  intro l
  induction l with
  | nil => intro i h _ hcount; simpa [hIndexLoop] using hcount
  | cons c rest ih =>
    intro i h hp hcount
    have hrest : rest.Pairwise (fun a b => b ≤ a) := (List.pairwise_cons.mp hp).2
    have hhead : ∀ b ∈ rest, b ≤ c := (List.pairwise_cons.mp hp).1
    unfold hIndexLoop
    split
    · case isTrue hc =>
      refine ih (i + 1) h hrest ?_
      have hsplit := List.countP_cons (fun x => decide ((h : Int) ≤ x)) c rest
      have hle :
          (c :: rest).countP (fun x => decide ((h : Int) ≤ x)) ≤
            rest.countP (fun x => decide ((h : Int) ≤ x)) + 1 := by
        rw [hsplit]; split <;> omega
      omega
    · case isFalse hc =>
      by_cases hhi : h ≤ i
      · exact hhi
      · exfalso
        have hhi' : i + 1 ≤ h := Nat.lt_of_not_le hhi
        have hcle : c ≤ (i : Int) := by omega
        have hzero : (c :: rest).countP (fun x => decide ((h : Int) ≤ x)) = 0 := by
          rw [List.countP_eq_zero]
          intro a ha
          simp only [decide_eq_true_eq]
          rcases List.mem_cons.mp ha with rfl | hmem
          · omega
          · have h1 : a ≤ c := hhead a hmem
            omega
        omega

theorem countP_sortDescInt (p : Int → Bool) (l : List Int) :
    (sortDescInt l).countP p = l.countP p :=
  (List.perm_insertionSort (fun a b : Int => b ≤ a) l).countP_eq p

theorem pairwise_sortDescInt (l : List Int) :
    (sortDescInt l).Pairwise (fun a b => b ≤ a) :=
  List.sorted_insertionSort (fun a b : Int => b ≤ a) l

/-! ## Claim theorems -/

theorem calculateHIndex_eq_loop {l : List Int} (h : l.isEmpty = false) :
    calculateHIndex l = hIndexLoop (sortDescInt l) 0 := by
  simp [calculateHIndex, h]

/-- C3: for every list of integer citation counts, `calculateHIndex` returns
the largest `h` such that at least `h` entries are `≥ h`: the result is
achieved (at least `result` entries are `≥ result`) and no larger `h`
satisfies the property; in particular
`calculateHIndex [10,8,5,4,3] = 4`, `calculateHIndex [] = 0` and
`calculateHIndex [1,1,1] = 1`. -/
theorem calculateHIndex_is_largest :
    (∀ l : List Int,
        calculateHIndex l ≤
          l.countP (fun c => decide ((calculateHIndex l : Int) ≤ c))) ∧
    (∀ (l : List Int) (h : Nat),
        h ≤ l.countP (fun c => decide ((h : Int) ≤ c)) → h ≤ calculateHIndex l) ∧
    calculateHIndex [10, 8, 5, 4, 3] = 4 ∧
    calculateHIndex [] = 0 ∧
    calculateHIndex [1, 1, 1] = 1 := by
  refine ⟨?_, ?_, by decide, by decide, by decide⟩
  · intro l
    by_cases hl : l.isEmpty
    · simp [calculateHIndex, hl]
    · rw [calculateHIndex_eq_loop (Bool.not_eq_true _ ▸ hl)]
      have h := hIndexLoop_achieves (sortDescInt l) 0 (pairwise_sortDescInt l)
      rw [countP_sortDescInt] at h
      simpa using h
  · intro l h hcount
    by_cases hl : l.isEmpty
    · have : l = [] := List.isEmpty_iff.mp hl
      subst this
      simpa [calculateHIndex] using hcount
    · rw [calculateHIndex_eq_loop (Bool.not_eq_true _ ▸ hl)]
      refine hIndexLoop_greatest (sortDescInt l) 0 h (pairwise_sortDescInt l) ?_
      rw [countP_sortDescInt]
      omega

theorem calculateHIndex_is_largest_witness :
    3 ≤ calculateHIndex [10, 8, 5, 4, 3] :=
  calculateHIndex_is_largest.2.1 [10, 8, 5, 4, 3] 3 (by decide)

theorem formatDataOrDash_never_unknownish (v : JSVal) :
    formatDataOrDash v ≠ JSVal.num 0 ∧ formatDataOrDash v ≠ JSVal.nullv ∧
    formatDataOrDash v ≠ JSVal.undef ∧ formatDataOrDash v ≠ JSVal.str "" := by
  cases v with
  | num n =>
    by_cases h : n = 0 <;> simp [formatDataOrDash, h]
  | str s =>
    by_cases h : s = "" <;> simp [formatDataOrDash, h]
  | nullv => simp [formatDataOrDash]
  | undef => simp [formatDataOrDash]

/-- C10: the `totalCitations` and `hIndex` fields of both enrichment
functions are produced by `formatDataOrDash`, so they are never the number
`0`, `null`, `undefined` or the empty string — a genuine zero count leaves
the enrichment as the string `"-"`, indistinguishable from unknown. -/
theorem enrich_metrics_never_zero :
    (∀ (now : Int) (name : String) (od : OrcidData) (raw : Option (List CRWork)),
      ((enrichWithOrcidAndCrossRefData now name od raw).totalCitations ≠ JSVal.num 0 ∧
        (enrichWithOrcidAndCrossRefData now name od raw).totalCitations ≠ JSVal.nullv ∧
        (enrichWithOrcidAndCrossRefData now name od raw).totalCitations ≠ JSVal.undef ∧
        (enrichWithOrcidAndCrossRefData now name od raw).totalCitations ≠ JSVal.str "") ∧
      ((enrichWithOrcidAndCrossRefData now name od raw).hIndex ≠ JSVal.num 0 ∧
        (enrichWithOrcidAndCrossRefData now name od raw).hIndex ≠ JSVal.nullv ∧
        (enrichWithOrcidAndCrossRefData now name od raw).hIndex ≠ JSVal.undef ∧
        (enrichWithOrcidAndCrossRefData now name od raw).hIndex ≠ JSVal.str "")) ∧
    (∀ (now : Int) (name : String) (od : OrcidData)
        (sem : Settled (List SSAuthor)) (cr : Settled (List CRItem)),
      ((enrichWithExternalData now name od sem cr).totalCitations ≠ JSVal.num 0 ∧
        (enrichWithExternalData now name od sem cr).totalCitations ≠ JSVal.nullv ∧
        (enrichWithExternalData now name od sem cr).totalCitations ≠ JSVal.undef ∧
        (enrichWithExternalData now name od sem cr).totalCitations ≠ JSVal.str "") ∧
      ((enrichWithExternalData now name od sem cr).hIndex ≠ JSVal.num 0 ∧
        (enrichWithExternalData now name od sem cr).hIndex ≠ JSVal.nullv ∧
        (enrichWithExternalData now name od sem cr).hIndex ≠ JSVal.undef ∧
        (enrichWithExternalData now name od sem cr).hIndex ≠ JSVal.str "")) := by
  constructor
  · intro now name od raw
    exact ⟨formatDataOrDash_never_unknownish _, formatDataOrDash_never_unknownish _⟩
  · intro now name od sem cr
    exact ⟨formatDataOrDash_never_unknownish _, formatDataOrDash_never_unknownish _⟩

/-- C1: when all bibliometric sources fail or time out, both enrichment
functions return (they are total functions in the embedding) with the base
publication list unmodified and `enhancedWith` empty.  For
`enrichWithOrcidAndCrossRefData` total failure means the CrossRef request
yielded nothing (`searchCrossRefByAuthor` returned `null`); for the
external-platform `enrichWithExternalData`, each of the two sources either
rejected or resolved to the empty list its own catch handler produces. -/
theorem enrich_total_failure_preserves_base :
    (∀ (now : Int) (name : String) (od : OrcidData),
      (enrichWithOrcidAndCrossRefData now name od none).publications = od.publications ∧
      (enrichWithOrcidAndCrossRefData now name od none).enhancedWith = []) ∧
    (∀ (now : Int) (name : String) (od : OrcidData)
        (sem : Settled (List SSAuthor)) (cr : Settled (List CRItem)),
      (sem = Settled.rejected ∨ sem = Settled.fulfilled []) →
      (cr = Settled.rejected ∨ cr = Settled.fulfilled []) →
      (enrichWithExternalData now name od sem cr).publications = od.publications ∧
      (enrichWithExternalData now name od sem cr).enhancedWith = []) := by
  constructor
  · intro now name od
    exact ⟨rfl, rfl⟩
  · intro now name od sem cr hsem hcr
    rcases hsem with rfl | rfl <;> rcases hcr with rfl | rfl <;> exact ⟨rfl, rfl⟩

theorem enrich_total_failure_preserves_base_witness :
    (enrichWithExternalData 2025 "Ada Lovelace"
        { publications := [], totalCitations := 0, hIndex := 0 }
        Settled.rejected Settled.rejected).publications = [] ∧
    (enrichWithExternalData 2025 "Ada Lovelace"
        { publications := [], totalCitations := 0, hIndex := 0 }
        Settled.rejected Settled.rejected).enhancedWith = [] :=
  enrich_total_failure_preserves_base.2 2025 "Ada Lovelace"
    { publications := [], totalCitations := 0, hIndex := 0 }
    Settled.rejected Settled.rejected (Or.inl rfl) (Or.inl rfl)

theorem commonTokens_eq_filter (a b : String) :
    (titleTokens (normalizeTitle a)).filter
      (fun w => (titleTokens (normalizeTitle b)).contains w) = commonTokens a b := rfl

theorem titleSimilarMatch_false_of_no_common (thNum thDen : Nat) (a b : String)
    (hn : 0 < thNum) (hne : normalizeTitle a ≠ normalizeTitle b)
    (hcom : commonTokens a b = []) : titleSimilarMatch thNum thDen a b = false := by
  unfold titleSimilarMatch
  have hbeq : (normalizeTitle a == normalizeTitle b) = false := beq_eq_false_iff_ne.mpr hne
  simp only [hbeq, Bool.false_eq_true, if_false]
  by_cases h1 : (titleTokens (normalizeTitle a)).isEmpty
  · simp [h1]
  · by_cases h2 : (titleTokens (normalizeTitle b)).isEmpty
    · simp [h2]
    · rw [commonTokens_eq_filter, hcom]
      have hmax : 0 < max (titleTokens (normalizeTitle a)).length
          (titleTokens (normalizeTitle b)).length := by
        have : (titleTokens (normalizeTitle a)) ≠ [] := by
          intro hnil; exact h1 (by simp [hnil])
        have hlen : 0 < (titleTokens (normalizeTitle a)).length :=
          List.length_pos.mpr this
        omega
      simp only [h1, h2, Bool.or_self, if_false, List.length_nil, Nat.zero_mul,
        Bool.or_false]
      simp only [Bool.false_eq_true, if_false, decide_eq_false_iff_not, not_le]
      exact Nat.mul_pos hn hmax

theorem titleSimilarMatch_iff_spec (thNum thDen : Nat) (a b : String)
    (hn : 0 < thNum) (hd : 0 < thDen) :
    titleSimilarMatch thNum thDen a b = true ↔
      specRecordMatch ((thNum : ℚ) / (thDen : ℚ)) a b := by
  have hθ : (0 : ℚ) < (thNum : ℚ) / (thDen : ℚ) := by
    apply div_pos
    · exact_mod_cast hn
    · exact_mod_cast hd
  unfold titleSimilarMatch specRecordMatch
  by_cases heq : normalizeTitle a = normalizeTitle b
  · simp [heq]
  · have hbeq : (normalizeTitle a == normalizeTitle b) = false := beq_eq_false_iff_ne.mpr heq
    simp only [hbeq, Bool.false_eq_true, if_false]
    by_cases h1 : (titleTokens (normalizeTitle a)).isEmpty
    · have hnil : titleTokens (normalizeTitle a) = [] := List.isEmpty_iff.mp h1
      have hcom : commonTokens a b = [] := by
        unfold commonTokens; rw [hnil]; rfl
      simp only [h1, Bool.true_or, if_true]
      rw [hcom]
      simp only [List.length_nil, Nat.cast_zero, zero_div]
      constructor
      · intro h; exact absurd h (by simp)
      · rintro (h | h)
        · exact absurd h heq
        · exact absurd h (not_le.mpr hθ)
    · by_cases h2 : (titleTokens (normalizeTitle b)).isEmpty
      · have hnil : titleTokens (normalizeTitle b) = [] := List.isEmpty_iff.mp h2
        have hcom : commonTokens a b = [] := by
          unfold commonTokens
          rw [hnil]
          simp
        simp only [h2, Bool.or_true, if_true]
        rw [hcom]
        simp only [List.length_nil, Nat.cast_zero, zero_div]
        constructor
        · intro h; exact absurd h (by simp)
        · rintro (h | h)
          · exact absurd h heq
          · exact absurd h (not_le.mpr hθ)
      · have h1' : (titleTokens (normalizeTitle a)).isEmpty = false := by
          simpa using h1
        have h2' : (titleTokens (normalizeTitle b)).isEmpty = false := by
          simpa using h2
        have hmaxpos : 0 < max (titleTokens (normalizeTitle a)).length
            (titleTokens (normalizeTitle b)).length := by
          have : (titleTokens (normalizeTitle a)) ≠ [] := by
            intro hnil; exact h1 (by simp [hnil])
          have hlen : 0 < (titleTokens (normalizeTitle a)).length :=
            List.length_pos.mpr this
          omega
        simp only [h1', h2', Bool.or_self, Bool.false_eq_true, if_false,
          decide_eq_true_eq]
        rw [commonTokens_eq_filter]
        constructor
        · intro h
          refine Or.inr ?_
          rw [div_le_div_iff₀ (by exact_mod_cast hd) (by exact_mod_cast hmaxpos)]
          exact_mod_cast h
        · rintro (h | h)
          · exact absurd h heq
          · rw [div_le_div_iff₀ (by exact_mod_cast hd) (by exact_mod_cast hmaxpos)] at h
            exact_mod_cast h

/-- C4 counterexample: the titles `"!!!"` and `"???"` share zero tokens
(both tokenize to nothing after normalization and the length filter), yet the
0.8 record matcher accepts them, because their normalized forms are both
empty and exact normalized equality short-circuits the overlap test — so
"two titles sharing zero tokens never match" fails as stated.  Dually, the
0.7 CrossRef matcher rejects this very pair of identical normalized titles
(its `if (!crossrefTitle) return false` guard fires on the empty normalized
title), so "identical normalized titles always match regardless of
threshold" also fails as stated. -/
theorem recordMatcher_counterexample :
    commonTokens "!!!" "???" = [] ∧
    titleSimilarMatch 8 10 "!!!" "???" = true ∧
    normalizeTitle "!!!" = normalizeTitle "???" ∧
    crossRefTitleMatch "!!!" (some "???") = false := by
  refine ⟨by decide, by decide, by decide, by decide⟩

/-- C4 amended: the record-matching step accepts a pair of titles exactly
when their normalized forms are equal or the token overlap
`|common| / max(|tokens_a|, |tokens_b|)` reaches the source threshold
(0.8 for Semantic Scholar, 0.7 for CrossRef — stated here for any positive
threshold `thNum/thDen`); identical normalized titles always match under the
0.8 matcher, and under the 0.7 CrossRef matcher provided the candidate's
normalized title is non-empty; and two titles with *different* normalized
forms sharing zero tokens never match under either matcher. -/
theorem recordMatcher_amended :
    (∀ (thNum thDen : Nat) (a b : String), 0 < thNum → 0 < thDen →
      (titleSimilarMatch thNum thDen a b = true ↔
        specRecordMatch ((thNum : ℚ) / (thDen : ℚ)) a b)) ∧
    (∀ a b : String, normalizeTitle a = normalizeTitle b →
      titleSimilarMatch 8 10 a b = true ∧ semanticTitleMatch a (some b) = true ∧
      (normalizeTitle b ≠ "" → crossRefTitleMatch a (some b) = true)) ∧
    (∀ a b : String, normalizeTitle a ≠ normalizeTitle b → commonTokens a b = [] →
      titleSimilarMatch 8 10 a b = false ∧ titleSimilarMatch 7 10 a b = false ∧
      semanticTitleMatch a (some b) = false ∧
      crossRefTitleMatch a (some b) = false) := by
  refine ⟨titleSimilarMatch_iff_spec, ?_, ?_⟩
  · intro a b heq
    have hmatch : titleSimilarMatch 8 10 a b = true := by
      unfold titleSimilarMatch
      simp [heq]
    have hmatch7 : titleSimilarMatch 7 10 a b = true := by
      unfold titleSimilarMatch
      simp [heq]
    refine ⟨hmatch, hmatch, ?_⟩
    intro hb
    unfold crossRefTitleMatch
    have : (normalizeTitle b == "") = false := beq_eq_false_iff_ne.mpr hb
    simp [this, hmatch7]
  · intro a b hne hcom
    have h8 := titleSimilarMatch_false_of_no_common 8 10 a b (by omega) hne hcom
    have h7 := titleSimilarMatch_false_of_no_common 7 10 a b (by omega) hne hcom
    refine ⟨h8, h7, h8, ?_⟩
    unfold crossRefTitleMatch
    by_cases hb : normalizeTitle b == ""
    · simp [hb]
    · simp only [hb, Bool.false_eq_true, if_false]
      exact h7

theorem recordMatcher_amended_witness :
    titleSimilarMatch 8 10 "alpha" "alpha" = true ∧
    (titleSimilarMatch 7 10 "completely different words" "unrelated title tokens" = true ↔
      specRecordMatch ((7 : ℚ) / (10 : ℚ)) "completely different words"
        "unrelated title tokens") :=
  ⟨(recordMatcher_amended.2.1 "alpha" "alpha" rfl).1,
    recordMatcher_amended.1 7 10 "completely different words" "unrelated title tokens"
      (by decide) (by decide)⟩

theorem sortsBefore_of_key_eq {a b : Researcher}
    (h : researcherKey a = researcherKey b) : sortsBefore a b := by
  have h1 : citNum a = citNum b := congrArg Prod.fst h
  have h2 : pubNum a = pubNum b := congrArg Prod.snd h
  exact Or.inr ⟨h1, le_of_eq h2.symm⟩

theorem key_ne_of_not_sortsBefore {a b : Researcher}
    (h : ¬ sortsBefore a b) : researcherKey a ≠ researcherKey b :=
  fun heq => h (sortsBefore_of_key_eq heq)

theorem filter_key_orderedInsert (k : Int × Int) (a : Researcher)
    (l : List Researcher) :
    (l.orderedInsert sortsBefore a).filter (fun r => researcherKey r == k) =
      if researcherKey a == k then
        a :: l.filter (fun r => researcherKey r == k)
      else l.filter (fun r => researcherKey r == k) := by
  induction l with
  | nil =>
    by_cases hk : researcherKey a == k <;>
      simp [List.orderedInsert, List.filter_cons, hk]
  | cons b t ih =>
    by_cases hab : sortsBefore a b
    · by_cases hk : researcherKey a == k <;>
        simp [List.orderedInsert, hab, List.filter_cons, hk]
    · have hoi : (b :: t).orderedInsert sortsBefore a =
          b :: t.orderedInsert sortsBefore a := by
        simp [List.orderedInsert, hab]
      rw [hoi]
      have hne : researcherKey a ≠ researcherKey b := key_ne_of_not_sortsBefore hab
      by_cases hk : researcherKey a == k
      · have hak : researcherKey a = k := by simpa using hk
        have hbk : (researcherKey b == k) = false := by
          apply beq_eq_false_iff_ne.mpr
          intro hbk'
          exact hne (by rw [hak, hbk'])
        simp [List.filter_cons, hbk, ih, hk]
      · by_cases hbk : researcherKey b == k <;>
          simp [List.filter_cons, hbk, ih, hk]

theorem filter_key_sortResearchers (k : Int × Int) (l : List Researcher) :
    (sortResearchers l).filter (fun r => researcherKey r == k) =
      l.filter (fun r => researcherKey r == k) := by
  unfold sortResearchers
  induction l with
  | nil => rfl
  | cons a t ih =>
    simp only [List.insertionSort]
    rw [filter_key_orderedInsert]
    by_cases hk : researcherKey a == k <;> simp [hk, ih, List.filter_cons]

theorem assignRanks_map_eraseRank (l : List Researcher) :
    (assignRanks l).map eraseRank = l.map eraseRank := by
  unfold assignRanks
  rw [List.map_map]
  have hcomp : (eraseRank ∘ fun p : Nat × Researcher => { p.2 with rank := p.1 + 1 }) =
      (eraseRank ∘ Prod.snd) := funext fun p => rfl
  rw [hcomp, ← List.map_map]
  unfold List.enum
  rw [List.enumFrom_map_snd]

theorem assignRanks_length (l : List Researcher) :
    (assignRanks l).length = l.length := by
  simp [assignRanks]

theorem rankAndSortResults_length_le (l : List Researcher) :
    (rankAndSortResults l).length ≤ (sortResearchers l).length := by
  simp [rankAndSortResults, assignRanks_length]

theorem citNum_withRank (x : Researcher) (n : Nat) :
    citNum { x with rank := n } = citNum x := rfl

theorem pubNum_withRank (x : Researcher) (n : Nat) :
    pubNum { x with rank := n } = pubNum x := rfl

theorem assignRanks_getElem (l : List Researcher) (i : Nat)
    (h : i < (assignRanks l).length) :
    (assignRanks l)[i] =
      { l.get ⟨i, by simpa [assignRanks_length] using h⟩ with rank := i + 1 } := by
  unfold assignRanks
  unfold List.enum
  simp

theorem rankAndSortResults_get (l : List Researcher) (i : Nat)
    (hi : i < (rankAndSortResults l).length) :
    (rankAndSortResults l).get ⟨i, hi⟩ =
      { (sortResearchers l).get
          ⟨i, lt_of_lt_of_le hi (rankAndSortResults_length_le l)⟩ with
        rank := i + 1 } := by
  have hi' : i < (assignRanks (sortResearchers l)).length := by
    rw [assignRanks_length]
    exact lt_of_lt_of_le hi (rankAndSortResults_length_le l)
  rw [List.get_eq_getElem]
  show ((assignRanks (sortResearchers l)).take 50)[i] = _
  rw [List.getElem_take]
  exact assignRanks_getElem _ i hi'

/-- C2: the list returned by `rankAndSortResults` has at most 50 entries,
carries dense 1-based ranks (the `i`-th entry has rank `i + 1`), is ordered
so that an entry of smaller rank has strictly more citations or equal
citations and at least as many publications (with `"-"` read as `0`), and
ties preserve the original discovery order (for every sort key, the
key-equal entries of the output form a prefix of the key-equal entries of
the input, ranks erased). -/
theorem rankAndSortResults_spec (l : List Researcher) :
    (rankAndSortResults l).length ≤ 50 ∧
    (∀ (i : Nat) (hi : i < (rankAndSortResults l).length),
      ((rankAndSortResults l).get ⟨i, hi⟩).rank = i + 1) ∧
    (∀ (i j : Nat) (hi : i < (rankAndSortResults l).length)
        (hj : j < (rankAndSortResults l).length),
      ((rankAndSortResults l).get ⟨i, hi⟩).rank <
          ((rankAndSortResults l).get ⟨j, hj⟩).rank →
        citNum ((rankAndSortResults l).get ⟨j, hj⟩) <
            citNum ((rankAndSortResults l).get ⟨i, hi⟩) ∨
          (citNum ((rankAndSortResults l).get ⟨i, hi⟩) =
              citNum ((rankAndSortResults l).get ⟨j, hj⟩) ∧
            pubNum ((rankAndSortResults l).get ⟨j, hj⟩) ≤
              pubNum ((rankAndSortResults l).get ⟨i, hi⟩))) ∧
    (∀ k : Int × Int,
      ((rankAndSortResults l).map eraseRank).filter (fun r => researcherKey r == k) <+:
        (l.map eraseRank).filter (fun r => researcherKey r == k)) := by
  refine ⟨?_, ?_, ?_, ?_⟩
  · simp only [rankAndSortResults, List.length_take]
    omega
  · intro i hi
    rw [rankAndSortResults_get l i hi]
  · intro i j hi hj hrank
    have hij : i < j := by
      rw [rankAndSortResults_get l i hi, rankAndSortResults_get l j hj] at hrank
      simpa using hrank
    have hi' : i < (sortResearchers l).length :=
      lt_of_lt_of_le hi (rankAndSortResults_length_le l)
    have hj' : j < (sortResearchers l).length :=
      lt_of_lt_of_le hj (rankAndSortResults_length_le l)
    have hs : List.Sorted sortsBefore (sortResearchers l) :=
      List.sorted_insertionSort sortsBefore l
    have hrel : sortsBefore ((sortResearchers l).get ⟨i, hi'⟩)
        ((sortResearchers l).get ⟨j, hj'⟩) :=
      hs.rel_get_of_lt (Fin.mk_lt_mk.mpr hij)
    rw [rankAndSortResults_get l i hi, rankAndSortResults_get l j hj]
    rw [citNum_withRank, citNum_withRank, pubNum_withRank, pubNum_withRank]
    unfold sortsBefore at hrel
    simpa [List.get_eq_getElem] using hrel
  · intro k
    have h1 : (rankAndSortResults l).map eraseRank =
        ((sortResearchers l).take 50).map eraseRank := by
      unfold rankAndSortResults
      rw [List.map_take, List.map_take, assignRanks_map_eraseRank]
    rw [h1]
    have h2 : ∀ L : List Researcher,
        (L.map eraseRank).filter (fun r => researcherKey r == k) =
          (L.filter (fun r => researcherKey r == k)).map eraseRank := by
      intro L
      rw [List.filter_map]
      rfl
    rw [h2, h2]
    have h3 : ((sortResearchers l).take 50).filter (fun r => researcherKey r == k) <+:
        (sortResearchers l).filter (fun r => researcherKey r == k) :=
      (List.take_prefix 50 (sortResearchers l)).filter _
    rw [filter_key_sortResearchers k l] at h3
    exact h3.map eraseRank

theorem rankAndSortResults_spec_witness :
    ((rankAndSortResults
        [{ orcidId := "0000-0001", name := "A", country := "Brazil", keywords := [],
           citationCount := JSVal.str "-", publicationCount := JSVal.num 2, rank := 0 },
         { orcidId := "0000-0002", name := "B", country := "US", keywords := [],
           citationCount := JSVal.num 7, publicationCount := JSVal.num 1, rank := 0 }]).get
      ⟨0, by decide⟩).rank = 1 ∧
    ((rankAndSortResults
        [{ orcidId := "0000-0001", name := "A", country := "Brazil", keywords := [],
           citationCount := JSVal.str "-", publicationCount := JSVal.num 2, rank := 0 },
         { orcidId := "0000-0002", name := "B", country := "US", keywords := [],
           citationCount := JSVal.num 7, publicationCount := JSVal.num 1, rank := 0 }]).get
      ⟨1, by decide⟩).rank = 2 :=
  ⟨(rankAndSortResults_spec _).2.1 0 (by decide),
    (rankAndSortResults_spec _).2.1 1 (by decide)⟩

/-- C6: under an active country filter (given, non-empty, not `"all"`) a
candidate whose extracted country is the unknown sentinel
`"País não informado"` is excluded by `processSingleResearcher`; with no
active filter every successfully fetched candidate is kept, whatever its
country. -/
theorem countryFilter_unknown_excluded :
    (∀ (id : String) (ok : Bool) (pm : ProfileMini) (f : String)
        (pd : Settled (JSVal × JSVal)),
      f ≠ "" → f ≠ "all" →
      (ok = true → searchExtractCountry pm = "País não informado") →
      processSingleResearcher id (Settled.fulfilled (ok, pm)) (some f) pd = none) ∧
    (∀ (id : String) (ok : Bool) (pm : ProfileMini) (fc : Option String)
        (pd : Settled (JSVal × JSVal)),
      countryFilterActive fc = false →
      (processSingleResearcher id (Settled.fulfilled (ok, pm)) fc pd).isSome = true) := by
  constructor
  · intro id ok pm f pd hne hnall hcountry
    have hne' : (f == "") = false := beq_eq_false_iff_ne.mpr hne
    have hnall' : (f == "all") = false := beq_eq_false_iff_ne.mpr hnall
    have hcountryval : (if ok then searchExtractCountry pm else "País não informado") =
        "País não informado" := by
      cases ok
      · rfl
      · simpa using hcountry rfl
    simp only [processSingleResearcher]
    rw [hcountryval]
    simp [countryFilterActive, isCountryMatch, hne', hnall']
  · intro id ok pm fc pd hact
    cases pd <;> simp [processSingleResearcher, hact]

theorem countryFilter_unknown_excluded_witness :
    processSingleResearcher "0000-0003"
      (Settled.fulfilled (true,
        { givenNames := some "Maria", familyName := some "Silva", creditName := none,
          addressCountries := [], keywords := [] }))
      (some "BR") Settled.rejected = none :=
  countryFilter_unknown_excluded.1 "0000-0003" true
    { givenNames := some "Maria", familyName := some "Silva", creditName := none,
      addressCountries := [], keywords := [] }
    "BR" Settled.rejected (by decide) (by decide) (fun _ => rfl)

/-- C7: a profile request whose person fetch rejects or returns a not-ok
response (e.g. a 404 for an unknown identifier) yields `notFound` and no
profile is constructed; a failure of only the employments (resp. educations,
works) fetch instead yields a profile whose corresponding section is empty
(for works: the ORCID-extracted publication list is empty, and with no
CrossRef data the profile's publication list is empty too). -/
theorem getProfile_notFound_or_degrades :
    (∀ (now : Int) (id : String) (pf : Settled (Bool × PersonData))
        (emp : Settled (Bool × List EmpSummary))
        (edu : Settled (Bool × List EduSummary))
        (works : Settled (Bool × List WorkGroupInput))
        (enr : Settled (Option (List CRWork))),
      id ≠ "" →
      (pf = Settled.rejected ∨ ∃ p, pf = Settled.fulfilled (false, p)) →
      GET now id none pf emp edu works enr = ProfileOutcome.notFound) ∧
    (∀ (now : Int) (id : String) (person : PersonData)
        (emp : Settled (Bool × List EmpSummary))
        (edu : Settled (Bool × List EduSummary))
        (works : Settled (Bool × List WorkGroupInput))
        (enr : Settled (Option (List CRWork))),
      id ≠ "" →
      (emp = Settled.rejected ∨ ∃ g, emp = Settled.fulfilled (false, g)) →
      (profileOf (GET now id none (Settled.fulfilled (true, person)) emp edu works
        enr)).map (fun p => p.employments) = some []) ∧
    (∀ (now : Int) (id : String) (person : PersonData)
        (emp : Settled (Bool × List EmpSummary))
        (edu : Settled (Bool × List EduSummary))
        (works : Settled (Bool × List WorkGroupInput))
        (enr : Settled (Option (List CRWork))),
      id ≠ "" →
      (edu = Settled.rejected ∨ ∃ g, edu = Settled.fulfilled (false, g)) →
      (profileOf (GET now id none (Settled.fulfilled (true, person)) emp edu works
        enr)).map (fun p => p.educations) = some []) ∧
    (∀ (now : Int) (id : String) (person : PersonData)
        (emp : Settled (Bool × List EmpSummary))
        (edu : Settled (Bool × List EduSummary))
        (works : Settled (Bool × List WorkGroupInput))
        (enr : Settled (Option (List CRWork))),
      id ≠ "" →
      (works = Settled.rejected ∨ ∃ g, works = Settled.fulfilled (false, g)) →
      (enr = Settled.fulfilled none ∨ enr = Settled.rejected) →
      (profileOf (GET now id none (Settled.fulfilled (true, person)) emp edu works
        enr)).map (fun p => p.publications) = some []) := by
  refine ⟨?_, ?_, ?_, ?_⟩
  · intro now id pf emp edu works enr hid hpf
    rcases hpf with rfl | ⟨p, rfl⟩ <;> simp [GET, hid]
  · intro now id person emp edu works enr hid hemp
    rcases hemp with rfl | ⟨g, rfl⟩ <;> cases enr <;>
      simp [GET, hid, profileOf]
  · intro now id person emp edu works enr hid hedu
    rcases hedu with rfl | ⟨g, rfl⟩ <;> cases enr <;>
      simp [GET, hid, profileOf]
  · intro now id person emp edu works enr hid hworks henr
    rcases hworks with rfl | ⟨g, rfl⟩ <;> rcases henr with rfl | rfl <;>
      simp [GET, hid, profileOf, extractPublications, enrichWithOrcidAndCrossRefData,
        crMergeStep]

theorem getProfile_notFound_or_degrades_witness :
    GET 2025 "0000-0000-0000-0000" none Settled.rejected Settled.rejected
      Settled.rejected Settled.rejected Settled.rejected =
      ProfileOutcome.notFound :=
  getProfile_notFound_or_degrades.1 2025 "0000-0000-0000-0000" Settled.rejected
    Settled.rejected Settled.rejected Settled.rejected Settled.rejected
    (by decide) (Or.inl rfl)

/-- C9: a search request whose body has no usable `query` value returns the
500 internal-error payload (the cache key computation `query.trim()` throws
before the presence check), and the 400 "Query is required" response is
reachable only for a present, whitespace-only query string. -/
theorem post_missing_query_is_500 :
    (∀ (t : String) (c : Option String)
        (cache : String → Option (List Researcher)) (creds : Bool)
        (r1 r2 r3 : Except Unit (List Researcher)),
      POST { query := none, type := t, country := c } cache creds r1 r2 r3 =
        SearchOutcome.internalError) ∧
    (∀ (body : SearchBody) (cache : String → Option (List Researcher))
        (creds : Bool) (r1 r2 r3 : Except Unit (List Researcher)),
      POST body cache creds r1 r2 r3 = SearchOutcome.badRequest →
      ∃ q, body.query = some q ∧ jsTrim q = "") := by
  constructor
  · intro t c cache creds r1 r2 r3
    rfl
  · intro body cache creds r1 r2 r3 h
    unfold POST at h
    cases hq : body.query with
    | none => rw [hq] at h; simp at h
    | some q =>
      rw [hq] at h
      simp only at h
      rcases hc : cache ("search_" ++ jsToLower (jsTrim q) ++ "_" ++ body.type ++ "_" ++
          countryKeyPart body.country) with - | res
      · rw [hc] at h
        by_cases ht : jsTrim q = ""
        · exact ⟨q, rfl, ht⟩
        · rw [if_neg ht] at h
          cases creds <;> simp at h
      · rw [hc] at h
        simp at h

theorem post_missing_query_is_500_witness :
    POST { query := none, type := "name", country := some "BR" } (fun _ => none)
        true (Except.error ()) (Except.error ()) (Except.error ()) =
      SearchOutcome.internalError ∧
    ∃ q, (SearchBody.mk (some "   ") "name" none).query = some q ∧ jsTrim q = "" :=
  ⟨post_missing_query_is_500.1 "name" (some "BR") (fun _ => none) true
      (Except.error ()) (Except.error ()) (Except.error ()),
    post_missing_query_is_500.2 { query := some "   ", type := "name", country := none }
      (fun _ => none) true (Except.error ()) (Except.error ()) (Except.error ())
      (by decide)⟩

/-- C5 counterexample: with an uncached, non-empty query, configured
credentials, and all three upstream search strategies raising, the `POST`
handler returns a successful payload with an empty researcher list — not an
error payload. -/
theorem search_total_failure_counterexample :
    POST { query := some "maria silva", type := "name", country := some "BR" }
        (fun _ => none) true (Except.error ()) (Except.error ()) (Except.error ()) =
      SearchOutcome.ok [] := by
  decide

theorem performSearch_all_fail_empty (c : Option String) :
    performCountryAwareSearchOptimized c (Except.error ()) (Except.error ())
      (Except.error ()) = [] := by
  unfold performCountryAwareSearchOptimized
  by_cases h : countryFilterActive c <;>
    simp [h, rankAndSortResults, sortResearchers, assignRanks]

/-- C5 amended: a search whose registry queries all fail upstream
(country-scoped strategy, general strategy, and the final fallback all
raise) is answered with the *successful* response `{ researchers: [] }`:
`performCountryAwareSearchOptimized` absorbs every strategy failure and the
handler caches and returns the empty ranked list.  The explicit error payload
is produced only when the handler body itself throws (e.g. missing query) or
credentials are unset. -/
theorem search_total_failure_returns_empty_ok :
    ∀ (q t : String) (c : Option String)
      (cache : String → Option (List Researcher)),
      jsTrim q ≠ "" →
      cache ("search_" ++ jsToLower (jsTrim q) ++ "_" ++ t ++ "_" ++
        countryKeyPart c) = none →
      POST { query := some q, type := t, country := c } cache true
          (Except.error ()) (Except.error ()) (Except.error ()) =
        SearchOutcome.ok [] := by
  intro q t c cache hq hcache
  unfold POST
  simp only []
  rw [hcache]
  rw [if_neg hq]
  simp [performSearch_all_fail_empty]

theorem search_total_failure_returns_empty_ok_witness :
    POST { query := some "ana", type := "name", country := none } (fun _ => none)
        true (Except.error ()) (Except.error ()) (Except.error ()) =
      SearchOutcome.ok [] :=
  search_total_failure_returns_empty_ok "ana" "name" none (fun _ => none)
    (by decide) rfl

theorem map_jsNumOrZero_of_obs {L1 L2 : List Pub}
    (h : L1.map pubObs = L2.map pubObs) :
    L1.map (fun p => jsNumOrZero p.citations) =
      L2.map (fun p => jsNumOrZero p.citations) := by
  have haux : ∀ L : List Pub, L.map (fun p => jsNumOrZero p.citations) =
      (L.map pubObs).map (fun o => jsNumOrZero o.2.1) := by
    intro L
    rw [List.map_map]
    rfl
  rw [haux, haux, h]

theorem isEmpty_of_obs {L1 L2 : List Pub}
    (h : L1.map pubObs = L2.map pubObs) : L1.isEmpty = L2.isEmpty := by
  cases L1 <;> cases L2 <;> simp_all

theorem enrichRecalcTotal_of_obs {L1 L2 : List Pub}
    (h : L1.map pubObs = L2.map pubObs) (eTC : JSVal) :
    enrichRecalcTotal L1 eTC = enrichRecalcTotal L2 eTC := by
  unfold enrichRecalcTotal
  rw [map_jsNumOrZero_of_obs h, isEmpty_of_obs h]

theorem enrichRecalcHIndex_of_obs {L1 L2 : List Pub}
    (h : L1.map pubObs = L2.map pubObs) (eHI : JSVal) :
    enrichRecalcHIndex L1 eHI = enrichRecalcHIndex L2 eHI := by
  unfold enrichRecalcHIndex
  rw [map_jsNumOrZero_of_obs h, isEmpty_of_obs h]

theorem map_obs_map {f1 f2 : Pub → Pub}
    (hf : ∀ p1 p2, pubObs p1 = pubObs p2 → pubObs (f1 p1) = pubObs (f2 p2)) :
    ∀ {L1 L2 : List Pub}, L1.map pubObs = L2.map pubObs →
      (L1.map f1).map pubObs = (L2.map f2).map pubObs := by
  intro L1
  induction L1 with
  | nil =>
    intro L2 h
    cases L2 with
    | nil => rfl
    | cons b u => simp at h
  | cons a t ih =>
    intro L2 h
    cases L2 with
    | nil => simp at h
    | cons b u =>
      simp only [List.map_cons, List.cons.injEq] at h ⊢
      exact ⟨hf a b h.1, ih h.2⟩

theorem crFillCitations_obs {crPubs1 crPubs2 : List Pub}
    (hcr : crPubs1.map pubObs = crPubs2.map pubObs) :
    ∀ p1 p2 : Pub, pubObs p1 = pubObs p2 →
      pubObs (crFillCitations crPubs1 p1) = pubObs (crFillCitations crPubs2 p2) := by
  intro p1 p2 hp
  have htitle : p1.title = p2.title := congrArg (fun o => o.1) hp
  have hcit : p1.citations = p2.citations := congrArg (fun o => o.2.1) hp
  have hdoi : p1.doi = p2.doi := congrArg (fun o => o.2.2) hp
  have hfind :
      (crPubs1.find? (fun cp =>
        strIncludes (jsToLower cp.title) (jsToLower p2.title) ||
        strIncludes (jsToLower p2.title) (jsToLower cp.title))).map pubObs =
      (crPubs2.find? (fun cp =>
        strIncludes (jsToLower cp.title) (jsToLower p2.title) ||
        strIncludes (jsToLower p2.title) (jsToLower cp.title))).map pubObs := by
    have haux : ∀ L : List Pub,
        (L.find? (fun cp =>
          strIncludes (jsToLower cp.title) (jsToLower p2.title) ||
          strIncludes (jsToLower p2.title) (jsToLower cp.title))).map pubObs =
        (L.map pubObs).find? (fun o =>
          strIncludes (jsToLower o.1) (jsToLower p2.title) ||
          strIncludes (jsToLower p2.title) (jsToLower o.1)) := by
      intro L
      rw [List.find?_map]
      rfl
    rw [haux, haux, hcr]
  unfold crFillCitations
  rw [htitle, hcit, hdoi]
  by_cases hcond : (jsFalsy p2.citations || p2.citations == JSVal.num 0) = true
  · simp only [hcond, if_true]
    generalize hf1 : crPubs1.find? (fun cp =>
      strIncludes (jsToLower cp.title) (jsToLower p2.title) ||
      strIncludes (jsToLower p2.title) (jsToLower cp.title)) = f1 at hfind ⊢
    generalize hf2 : crPubs2.find? (fun cp =>
      strIncludes (jsToLower cp.title) (jsToLower p2.title) ||
      strIncludes (jsToLower p2.title) (jsToLower cp.title)) = f2 at hfind ⊢
    cases f1 with
    | none =>
      cases f2 with
      | none => exact hp
      | some cp2 => simp at hfind
    | some cp1 =>
      cases f2 with
      | none => simp at hfind
      | some cp2 =>
        simp only [Option.map_some', Option.some.injEq] at hfind
        have hc : cp1.citations = cp2.citations := congrArg (fun o => o.2.1) hfind
        have hd : cp1.doi = cp2.doi := congrArg (fun o => o.2.2) hfind
        dsimp only
        rw [hc, hd]
        by_cases hpos : jsNumPos cp2.citations = true
        · simp only [hpos, if_true]
          rfl
        · have hpos' : jsNumPos cp2.citations = false := by
            simpa using hpos
          simp only [hpos', Bool.false_eq_true, if_false]
          exact hp
  · have hcond' : (jsFalsy p2.citations || p2.citations == JSVal.num 0) = false := by
      simpa using hcond
    simp only [hcond', Bool.false_eq_true, if_false]
    exact hp

theorem crMergeStep_obs (basePubs : List Pub) (ewIn : List String)
    {cr1 cr2 : CRAuthorResult}
    (hobs : cr1.publications.map pubObs = cr2.publications.map pubObs) :
    (crMergeStep basePubs ewIn cr1).1.map pubObs =
      (crMergeStep basePubs ewIn cr2).1.map pubObs ∧
    (crMergeStep basePubs ewIn cr1).2 = (crMergeStep basePubs ewIn cr2).2 := by
  have hempty : cr1.publications.isEmpty = cr2.publications.isEmpty :=
    isEmpty_of_obs hobs
  unfold crMergeStep
  by_cases he : cr1.publications.isEmpty = true
  · rw [he, ← hempty, he]
    exact ⟨rfl, rfl⟩
  · have he1 : cr1.publications.isEmpty = false := by simpa using he
    have he2 : cr2.publications.isEmpty = false := by rw [← hempty]; exact he1
    rw [he1, he2]
    simp only [Bool.false_eq_true, if_false]
    have hN : (cr1.publications.filter (fun p =>
        !(basePubs.map (fun p => jsToLower p.title)).contains (jsToLower p.title))).map pubObs =
      (cr2.publications.filter (fun p =>
        !(basePubs.map (fun p => jsToLower p.title)).contains (jsToLower p.title))).map pubObs := by
      have haux : ∀ L : List Pub,
          (L.filter (fun p =>
            !(basePubs.map (fun p => jsToLower p.title)).contains (jsToLower p.title))).map pubObs =
          (L.map pubObs).filter (fun o =>
            !(basePubs.map (fun p => jsToLower p.title)).contains (jsToLower o.1)) := by
        intro L
        rw [List.filter_map]
        rfl
      rw [haux, haux, hobs]
    have hNe : (cr1.publications.filter (fun p =>
        !(basePubs.map (fun p => jsToLower p.title)).contains (jsToLower p.title))).isEmpty =
      (cr2.publications.filter (fun p =>
        !(basePubs.map (fun p => jsToLower p.title)).contains (jsToLower p.title))).isEmpty :=
      isEmpty_of_obs hN
    by_cases hne : (cr1.publications.filter (fun p =>
        !(basePubs.map (fun p => jsToLower p.title)).contains (jsToLower p.title))).isEmpty = true
    · rw [hne, ← hNe, hne]
      simp only [if_true]
      exact ⟨map_obs_map (crFillCitations_obs hobs) rfl, trivial⟩
    · have hne1 : (cr1.publications.filter (fun p =>
          !(basePubs.map (fun p => jsToLower p.title)).contains (jsToLower p.title))).isEmpty =
            false := by simpa using hne
      have hne2 : (cr2.publications.filter (fun p =>
          !(basePubs.map (fun p => jsToLower p.title)).contains (jsToLower p.title))).isEmpty =
            false := by rw [← hNe]; exact hne1
      rw [hne1, hne2]
      simp only [Bool.false_eq_true, if_false]
      have hmerged : ((basePubs ++ cr1.publications.filter (fun p =>
          !(basePubs.map (fun p => jsToLower p.title)).contains (jsToLower p.title))).take 50).map
            pubObs =
        ((basePubs ++ cr2.publications.filter (fun p =>
          !(basePubs.map (fun p => jsToLower p.title)).contains (jsToLower p.title))).take 50).map
            pubObs := by
        rw [List.map_take, List.map_take, List.map_append, List.map_append, hN]
      exact ⟨map_obs_map (crFillCitations_obs hobs) hmerged, trivial⟩

theorem crEnrichBranch_congr (orcid : OrcidData) (cr1 cr2 : CRAuthorResult)
    (htc : cr1.totalCitations = cr2.totalCitations)
    (hhi : cr1.hIndex = cr2.hIndex)
    (hobs : cr1.publications.map pubObs = cr2.publications.map pubObs) :
    (crEnrichBranch orcid cr1).1.map pubObs =
      (crEnrichBranch orcid cr2).1.map pubObs ∧
    (crEnrichBranch orcid cr1).2.1 = (crEnrichBranch orcid cr2).2.1 ∧
    (crEnrichBranch orcid cr1).2.2.1 = (crEnrichBranch orcid cr2).2.2.1 ∧
    (crEnrichBranch orcid cr1).2.2.2 = (crEnrichBranch orcid cr2).2.2.2 := by
  unfold crEnrichBranch
  rw [htc, hhi]
  dsimp only
  obtain ⟨hm1, hm2⟩ := crMergeStep_obs orcid.publications
    (if orcid.hIndex == 0 && decide (0 < cr2.hIndex) then
      pushIfAbsent
        (if orcid.totalCitations == 0 && decide (0 < cr2.totalCitations) then ["CrossRef"]
         else []) "CrossRef"
     else
      (if orcid.totalCitations == 0 && decide (0 < cr2.totalCitations) then ["CrossRef"]
       else [])) hobs
  exact ⟨hm1, rfl, rfl, hm2⟩

theorem searchCrossRefProcess_some (now : Int) (name : String) (works : List CRWork)
    (hw : works.isEmpty = false) :
    searchCrossRefProcess now name works = some
      { publications :=
          ((works.filter (crWorkAuthorMatch name)).take 50).map (pubOfWork now),
        totalCitations :=
          (((works.filter (crWorkAuthorMatch name)).take 50).map
            (fun w => workCitations w)).foldl (· + ·) 0,
        hIndex :=
          calculateHIndex (sortDescInt
            (((works.filter (crWorkAuthorMatch name)).take 50).map
              (fun w => workCitations w))) } := by
  unfold searchCrossRefProcess
  rw [hw]
  simp only [Bool.false_eq_true, if_false, List.map_map]
  rfl

theorem pubObs_map_pubOfWork (now1 now2 : Int) (L : List CRWork) :
    (L.map (pubOfWork now1)).map pubObs = (L.map (pubOfWork now2)).map pubObs := by
  rw [List.map_map, List.map_map]
  exact List.map_congr_left (fun w _ => rfl)

/-- C8: `enrichWithOrcidAndCrossRefData` is a pure function of its inputs and
the parsed bibliometric responses in the embedding, and its `totalCitations`
and `hIndex` do not depend on the one remaining environmental input, the
current date (used only to default missing publication years) — so two calls
with identical source responses return identical `totalCitations` and
`hIndex` values even across a date change (and the cached second call replays
the stored result of the same computation). -/
theorem enrich_deterministic (now1 now2 : Int) (name : String) (od : OrcidData)
    (raw : Option (List CRWork)) :
    (enrichWithOrcidAndCrossRefData now1 name od raw).totalCitations =
      (enrichWithOrcidAndCrossRefData now2 name od raw).totalCitations ∧
    (enrichWithOrcidAndCrossRefData now1 name od raw).hIndex =
      (enrichWithOrcidAndCrossRefData now2 name od raw).hIndex := by
  cases raw with
  | none => exact ⟨rfl, rfl⟩
  | some works =>
    by_cases hw : works.isEmpty = true
    · have h1 : searchCrossRefProcess now1 name works = none := by
        unfold searchCrossRefProcess
        rw [hw]
        rfl
      have h2 : searchCrossRefProcess now2 name works = none := by
        unfold searchCrossRefProcess
        rw [hw]
        rfl
      unfold enrichWithOrcidAndCrossRefData
      rw [Option.some_bind, Option.some_bind, h1, h2]
      exact ⟨rfl, rfl⟩
    · have hw' : works.isEmpty = false := by simpa using hw
      unfold enrichWithOrcidAndCrossRefData
      rw [Option.some_bind, Option.some_bind,
        searchCrossRefProcess_some now1 name works hw',
        searchCrossRefProcess_some now2 name works hw']
      dsimp only
      obtain ⟨hm, htc, hhi, -⟩ := crEnrichBranch_congr od
        { publications :=
            ((works.filter (crWorkAuthorMatch name)).take 50).map (pubOfWork now1),
          totalCitations :=
            (((works.filter (crWorkAuthorMatch name)).take 50).map
              (fun w => workCitations w)).foldl (· + ·) 0,
          hIndex :=
            calculateHIndex (sortDescInt
              (((works.filter (crWorkAuthorMatch name)).take 50).map
                (fun w => workCitations w))) }
        { publications :=
            ((works.filter (crWorkAuthorMatch name)).take 50).map (pubOfWork now2),
          totalCitations :=
            (((works.filter (crWorkAuthorMatch name)).take 50).map
              (fun w => workCitations w)).foldl (· + ·) 0,
          hIndex :=
            calculateHIndex (sortDescInt
              (((works.filter (crWorkAuthorMatch name)).take 50).map
                (fun w => workCitations w))) }
        rfl rfl (pubObs_map_pubOfWork now1 now2 _)
      constructor
      · rw [htc]
        exact congrArg formatDataOrDash (enrichRecalcTotal_of_obs hm _)
      · rw [hhi]
        exact congrArg formatDataOrDash (enrichRecalcHIndex_of_obs hm _)
